import Mathlib

/-!
# Verification of the sponsor-filter pipeline

Shallow embedding of the core logic of the `sponsor-filter` repository
(`app/services/filter_service.py`, `app/services/detection_service.py`,
`app/services/pattern_analyzer_service.py`, `app/services/ocr_service.py`,
`app/core/constants.py`, `app/utils/ocr_utils.py`) together with proofs
about the claims of its specification.

Modelling conventions:
* Python `str` is modelled by `List Char` (wrapped helpers work on `String`).
* Python `float` arithmetic is modelled exactly over `ℚ`; every constant in
  the source is a short decimal literal, and all claims are non-strict
  inequalities with ample margins, so exact rational arithmetic is faithful.
* Python dictionaries holding indicators are modelled by a structure with
  one `Option` field per key the code reads (`dict.get` with a default maps
  to `Option.getD`).
* Exceptions are modelled with `Except`.
* Network and OCR collaborators (spec §6 external interfaces) are oracles
  passed as function parameters.
-/

deriving instance DecidableEq for Except

namespace SponsorFilter

/-! ## Python string primitives -/

/-- `needle.isPrefixOf hay` on raw character lists. -/
def listIsPrefix : List Char → List Char → Bool
  | [], _ => true
  | _ :: _, [] => false
  | a :: as, b :: bs => a == b && listIsPrefix as bs

/-- Python's substring test `needle in hay` (`"" in s` is `True`). -/
def listContainsSub (needle hay : List Char) : Bool :=
  match hay with
  | [] => listIsPrefix needle []
  | _ :: t => listIsPrefix needle hay || listContainsSub needle t

/-- Python `needle in hay` on `String`. -/
def pyIn (needle hay : String) : Bool :=
  listContainsSub needle.data hay.data

/-- Python `str.lower()` (ASCII case folding; the Korean characters used by
the source are unaffected by case folding). -/
def pyLower (s : String) : String :=
  ⟨s.data.map Char.toLower⟩

/-- Python `s.count(c)` for a single-character needle: the number of
occurrences of the character. -/
def pyCountChar (s : String) (c : Char) : Nat :=
  (s.data.filter (· == c)).length

/-- One fuelled step list of Python `str.replace` with a non-empty needle:
replaces left-to-right, non-overlapping occurrences. -/
def pyReplaceAux (old new : List Char) : Nat → List Char → List Char
  | 0, s => s
  | _ + 1, [] => []
  | fuel + 1, c :: t =>
    if listIsPrefix old (c :: t) then
      new ++ pyReplaceAux old new fuel ((c :: t).drop old.length)
    else
      c :: pyReplaceAux old new fuel t

/-- Python `s.replace(old, new)`: all non-overlapping occurrences, scanning
left to right.  (For an empty `old`, Python interleaves `new` around every
character; no call site uses an empty needle.) -/
def pyReplace (s old new : String) : String :=
  match old.data with
  | [] => ⟨new.data ++ s.data.flatMap (fun c => [c] ++ new.data)⟩
  | _ :: _ => ⟨pyReplaceAux old.data new.data s.data.length s.data⟩

/-- Python `str.strip()`: remove leading and trailing whitespace. -/
def pyStrip (s : String) : String :=
  ⟨(s.data.dropWhile Char.isWhitespace).reverse.dropWhile Char.isWhitespace |>.reverse⟩

/-- `re.sub(r"\s+", "", text)`: drop every whitespace character. -/
def removeWhitespace (s : String) : String :=
  ⟨s.data.filter (fun c => !c.isWhitespace)⟩

/-- Python `s[:n]` (truncation used for matched-text excerpts). -/
def pyTake (s : String) (n : Nat) : String :=
  ⟨s.data.take n⟩

/-! ## A miniature regex engine

The source uses `re.search` only on patterns of a fixed simple shape:
sequences of alternations of literal strings separated by bounded gaps
`.{0,n}` (a gap matches up to `n` arbitrary non-newline characters,
greedily).  `RxTok`/`rxSearch` embed exactly those semantics, including
Python's leftmost-match rule, in-order alternation and greedy backtracking
on the gap width; `rxSearch` returns `match.group(0)`. -/

inductive RxTok where
  | lit (alts : List String)
  | gap (n : Nat)
deriving Repr, DecidableEq

abbrev Rx := List RxTok

mutual

/-- Match a token list at the head of `s`, returning the matched prefix
(`group(0)` of an anchored match).  The fuel bounds the depth of the
backtracking chain; `rxFuel` below always supplies enough. -/
def rxMatchAt : Nat → Rx → List Char → Option (List Char)
  | 0, _, _ => none
  | _ + 1, [], _ => some []
  | fuel + 1, .lit alts :: rest, s => rxMatchLit fuel alts rest s
  | fuel + 1, .gap n :: rest, s => rxMatchGap fuel n rest s

/-- Try alternatives in order (Python tries the alternation's branches left
to right, backtracking to later branches on failure). -/
def rxMatchLit : Nat → List String → Rx → List Char → Option (List Char)
  | 0, _, _, _ => none
  | _ + 1, [], _, _ => none
  | fuel + 1, a :: more, rest, s =>
    if listIsPrefix a.data s then
      match rxMatchAt fuel rest (s.drop a.data.length) with
      | some m => some (a.data ++ m)
      | none => rxMatchLit fuel more rest s
    else rxMatchLit fuel more rest s

/-- Greedy bounded gap `.\x7b0,k\x7d`: try widths `k, k-1, …, 0`; a gap
character may be anything but a newline (Python's `.`). -/
def rxMatchGap : Nat → Nat → Rx → List Char → Option (List Char)
  | 0, _, _, _ => none
  | fuel + 1, k, rest, s =>
    match
      (if k ≤ s.length && ((s.take k).all (fun c => !(c == '\n'))) then
        (rxMatchAt fuel rest (s.drop k)).map (fun m => s.take k ++ m)
      else none) with
    | some m => some m
    | none =>
      match k with
      | 0 => none
      | k' + 1 => rxMatchGap fuel k' rest s

end

/-- Depth bound for the backtracking chain of `rxMatchAt`. -/
def rxFuel : Rx → Nat
  | [] => 1
  | .lit alts :: rest => 1 + alts.length + rxFuel rest
  | .gap n :: rest => 1 + n + rxFuel rest

/-- Leftmost search: try each start position in order (Python `re.search`). -/
def rxSearchFrom (rx : Rx) : List Char → Option (List Char)
  | [] => rxMatchAt (rxFuel rx) rx []
  | c :: t =>
    match rxMatchAt (rxFuel rx) rx (c :: t) with
    | some m => some m
    | none => rxSearchFrom rx t

/-- `re.search(rx, text)`, returning `match.group(0)` when a match exists. -/
def rxSearch (rx : Rx) (text : String) : Option String :=
  (rxSearchFrom rx text.data).map (fun m => ⟨m⟩)

/-! ## Constants (`app/core/constants.py`) -/

/-- `EXACT_SPONSOR_KEYWORDS_PATTERNS` (constants.py lines 7-16): the curated
unambiguous-sponsor-phrase set.  NOTE: no module under `src/` ever reads this
constant. -/
def EXACT_SPONSOR_KEYWORDS_PATTERNS : List String :=
  ["원고료", "소정의", "업체", "체험단", "협찬", "[현산", "[.싫헐진"]

/-- `SPECIAL_CASE_PATTERNS` (constants.py lines 18-35): rule name together
with its two trigger-term sets (`terms1`, `terms2`).  In
`calculate_sponsor_probability` the dict VALUE (a Python dict) is what gets
bound to the content weight, which is what makes that code raise. -/
def SPECIAL_CASE_PATTERNS : List (String × List String × List String) :=
  [("업체 + 지원/제공", ["업체"], ["지원", "제공"]),
   ("후기 + 지원/제공", ["후기"], ["지원", "제공"]),
   ("광고 + 콘텐츠", ["광고"], ["콘텐츠", "포스팅", "게시물"]),
   ("AD + 포스팅", ["ad"], ["포스팅", "콘텐츠", "게시물"])]

/-- `SPONSOR_KEYWORDS` (constants.py lines 38-62): keyword → base weight. -/
def SPONSOR_KEYWORDS : List (String × ℚ) :=
  [("협찬", 0.8), ("체험단", 0.6), ("체험", 0.3), ("지원", 0.4),
   ("제공", 0.4), ("무상", 0.4), ("무료제공", 0.6), ("고료", 0.6),
   ("제품제공", 0.7), ("광고", 0.01), ("유료광고", 0.8), ("작성", 0.01),
   ("후기", 0.01), ("받았습니다", 0.2), ("받아", 0.01), ("받고", 0.01),
   ("로부터", 0.01)]

/-- `STICKER_DOMAINS` (constants.py lines 65-70). -/
def STICKER_DOMAINS : List String :=
  ["storep-phinf.pstatic.net", "post-phinf.pstatic.net", "cometoplay.kr",
   "reviewnote.co.kr"]

/-- `PATTERN_TYPE_WEIGHTS` (constants.py lines 99-105). -/
def PATTERN_TYPE_WEIGHTS : List (String × ℚ) :=
  [("pattern", 0.8), ("special_case", 0.75), ("keyword", 0.4),
   ("image_text", 0.7), ("unknown", 0.1)]

/-- `SOURCE_WEIGHTS` (constants.py lines 108-114). -/
def SOURCE_WEIGHTS : List (String × ℚ) :=
  [("sticker_ocr", 0.85), ("description", 0.8), ("html_element", 0.7),
   ("text_content", 0.3), ("unknown", 0.1)]

/-- `{**PATTERN_TYPE_WEIGHTS, **SOURCE_WEIGHTS}` (filter_service.py line
321): merged lookup (the two key sets overlap only at `"unknown"`, where both
carry `0.1`, so the merge is order-insensitive). -/
def allWeightsGet (key : String) : Option ℚ :=
  (PATTERN_TYPE_WEIGHTS ++ SOURCE_WEIGHTS).lookup key

/-- `SPONSOR_KEYWORDS.get(k, d)`. -/
def sponsorKeywordsGet (key : String) (dflt : ℚ) : ℚ :=
  (SPONSOR_KEYWORDS.lookup key).getD dflt

/-- `DetectionService.SPONSOR_TEXT_PATTERNS` (detection_service.py lines
41-52): the ten sponsor-phrase regexes, each as its source string paired
with its embedded matcher. -/
def SPONSOR_TEXT_PATTERNS : List (String × Rx) :=
  [("(제공|지원)받아", [.lit ["제공", "지원"], .lit ["받아"]]),
   ("(원고료|소정의).\x7b0,10\x7d(제공|지원)",
    [.lit ["원고료", "소정의"], .gap 10, .lit ["제공", "지원"]]),
   ("(체험|방문).\x7b0,10\x7d후기",
    [.lit ["체험", "방문"], .gap 10, .lit ["후기"]]),
   ("(업체|제품).\x7b0,10\x7d(제공|지원)",
    [.lit ["업체", "제품"], .gap 10, .lit ["제공", "지원"]]),
   ("(무상|무료).\x7b0,10\x7d(제공|지원)",
    [.lit ["무상", "무료"], .gap 10, .lit ["제공", "지원"]]),
   ("(협찬|스폰서).\x7b0,10\x7d(포스팅|후기)",
    [.lit ["협찬", "스폰서"], .gap 10, .lit ["포스팅", "후기"]]),
   ("업체.\x7b0,15\x7d(제공|지원)받아",
    [.lit ["업체"], .gap 15, .lit ["제공", "지원"], .lit ["받아"]]),
   ("업체.\x7b0,15\x7d후기", [.lit ["업체"], .gap 15, .lit ["후기"]]),
   ("제품.\x7b0,15\x7d후기", [.lit ["제품"], .gap 15, .lit ["후기"]]),
   ("(제공|지원).\x7b0,5\x7d받아.\x7b0,10\x7d후기",
    [.lit ["제공", "지원"], .gap 5, .lit ["받아"], .gap 10, .lit ["후기"]])]

/-- Modelled from the spec: `SPONSOR_PATTERNS`, the regex-pattern → weight
table imported by `filter_service.py` and `pattern_analyzer_service.py` from
`app.core.constants` but absent from the `constants.py` under `src/`.  The
keys are the in-repository duplicate list
`DetectionService.SPONSOR_TEXT_PATTERNS` (detection_service.py lines 41-52),
which `pattern_analyzer_service.py` mirrors via
`list(SPONSOR_PATTERNS.keys())`; the spec (§2, §9) describes the weights as
hand-authored tunable constants in [0,1], so each entry carries the
representative regex-match weight 0.8 (`PATTERN_TYPE_WEIGHTS["pattern"]`). -/
def SPONSOR_PATTERNS : List (String × Rx × ℚ) :=
  SPONSOR_TEXT_PATTERNS.map fun pr => (pr.1, pr.2, (0.8 : ℚ))

/-! ## Indicators

A Python indicator dictionary, projected onto the keys the pipeline reads.
A key that may be missing is an `Option` (`none` ↔ key absent; `dict.get`
with a default maps to `Option.getD`).  The nested `source_info` dict is
flattened onto its two read keys, `"text"` and `"image_url"`. -/

structure Indicator where
  type : Option String := none
  pattern : Option String := none
  matched_text : Option String := none
  source : Option String := none
  siText : Option String := none
  siImageUrl : Option String := none
  probability : Option ℚ := none
  version : Option String := none
deriving Repr, DecidableEq

/-- An element of a heterogeneous indicator list: `DetectionService`
produces plain strings while the text matchers produce dictionaries. -/
inductive IndVal where
  | str (s : String)
  | ind (i : Indicator)
deriving Repr, DecidableEq

/-- The Python exceptions the aggregator can raise. -/
inductive PyErr where
  /-- `'str' object has no attribute 'get'` -/
  | attributeError
  /-- `unsupported operand type(s) for *: 'dict' and 'float'` -/
  | typeError
deriving Repr, DecidableEq

/-! ## Snippet matcher (`FilterService.check_description_for_sponsors`) -/

/-- `re.sub(r"<[^>]+>", "", s)` (filter_service.py line 175): remove every
maximal `<…>` block containing at least one non-`>` character, scanning left
to right. -/
def stripTagsAux : Nat → List Char → List Char
  | 0, s => s
  | _ + 1, [] => []
  | fuel + 1, c :: t =>
    if c == '<' then
      match t.findIdx? (fun d => d == '>') with
      | some i =>
        if 1 ≤ i then stripTagsAux fuel (t.drop (i + 1))
        else c :: stripTagsAux fuel t
      | none => c :: stripTagsAux fuel t
    else c :: stripTagsAux fuel t

def stripTags (s : String) : String :=
  ⟨stripTagsAux s.data.length s.data⟩

/-- `clean_text[:50] + "..." if len(clean_text) > 50 else clean_text`. -/
def excerpt50 (s : String) : String :=
  if 50 < s.data.length then pyTake s 50 ++ "..." else s

/-- The four hard-coded special-case branches of
`check_description_for_sponsors` (filter_service.py lines 218-310),
dispatched on the rule name exactly as the `elif` chain does. -/
def descriptionSpecialCaseHit (clean : String) (name : String) : Bool :=
  if name == "업체 + 지원/제공" then
    pyIn "업체" clean && (pyIn "지원" clean || pyIn "제공" clean)
  else if name == "후기 + 지원/제공" then
    pyIn "후기" clean && (pyIn "지원" clean || pyIn "제공" clean)
  else if name == "광고 + 콘텐츠" then
    pyIn "광고" clean &&
      (pyIn "콘텐츠" clean || pyIn "포스팅" clean || pyIn "게시물" clean)
  else if name == "AD + 포스팅" then
    (pyIn "AD" clean || pyIn "ad" (pyLower clean)) &&
      (pyIn "포스팅" clean || pyIn "콘텐츠" clean || pyIn "게시물" clean)
  else false

/-- `FilterService.check_description_for_sponsors` (filter_service.py lines
159-312): single keywords, then regex patterns, then special cases, all
against the tag-stripped snippet, every indicator tagged `description`. -/
def check_description_for_sponsors (description : String) : List Indicator :=
  if description == "" then []
  else
    let clean := stripTags description
    let info := excerpt50 clean
    (SPONSOR_KEYWORDS.filterMap fun kv =>
      if pyIn kv.1 clean then
        some { type := some "keyword", pattern := some kv.1,
               matched_text := some kv.1, source := some "description",
               siText := some info }
      else none) ++
    (SPONSOR_PATTERNS.filterMap fun prw =>
      (rxSearch prw.2.1 clean).map fun m =>
        { type := some "pattern", pattern := some prw.1,
          matched_text := some m, source := some "description",
          siText := some info }) ++
    (SPECIAL_CASE_PATTERNS.filterMap fun ntt =>
      if descriptionSpecialCaseHit clean ntt.1 then
        some { type := some "special_case", pattern := some ntt.1,
               matched_text := some info, source := some "description",
               siText := some info }
      else none)

/-! ## OCR-text matcher (`PatternAnalyzerService.check_ocr_text_for_sponsors`) -/

/-- The special-case branches of `check_ocr_text_for_sponsors`
(pattern_analyzer_service.py lines 89-152); each term is looked up in both
the raw and the whitespace-stripped text. -/
def ocrSpecialCaseHit (ocrText norm : String) (name : String) : Bool :=
  if name == "업체 + 지원/제공" then
    (pyIn "업체" ocrText || pyIn "업체" norm) &&
      ((pyIn "지원" ocrText || pyIn "제공" ocrText) ||
       (pyIn "지원" norm || pyIn "제공" norm))
  else if name == "후기 + 지원/제공" then
    (pyIn "후기" ocrText || pyIn "후기" norm) &&
      ((pyIn "지원" ocrText || pyIn "제공" ocrText) ||
       (pyIn "지원" norm || pyIn "제공" norm))
  else if name == "광고 + 콘텐츠" then
    (pyIn "광고" ocrText || pyIn "광고" norm) &&
      ((pyIn "콘텐츠" ocrText || pyIn "포스팅" ocrText || pyIn "게시물" ocrText) ||
       (pyIn "콘텐츠" norm || pyIn "포스팅" norm || pyIn "게시물" norm))
  else if name == "AD + 포스팅" then
    (pyIn "AD" ocrText || pyIn "ad" (pyLower ocrText) || pyIn "AD" norm) &&
      ((pyIn "포스팅" ocrText || pyIn "콘텐츠" ocrText || pyIn "게시물" ocrText) ||
       (pyIn "포스팅" norm || pyIn "콘텐츠" norm || pyIn "게시물" norm))
  else false

/-- The keyword pass of `check_ocr_text_for_sponsors` run on one
`text_version` (pattern_analyzer_service.py lines 56-70).  The version label
compares the current text version with the normalized text, exactly as the
source's equality test does. -/
def ocrKeywordPass (textVersion norm : String) : List Indicator :=
  SPONSOR_KEYWORDS.filterMap fun kv =>
    if pyIn kv.1 textVersion then
      some { type := some "keyword", pattern := some kv.1,
             matched_text := some kv.1,
             version := some (if textVersion == norm then "normalized"
                              else "original") }
    else none

/-- The regex pass of `check_ocr_text_for_sponsors` on one `text_version`
(pattern_analyzer_service.py lines 72-87): skipped entirely when the version
under scrutiny equals the normalized text. -/
def ocrPatternPass (textVersion norm : String) : List Indicator :=
  if textVersion == norm then []
  else
    SPONSOR_PATTERNS.filterMap fun prw =>
      (rxSearch prw.2.1 textVersion).map fun m =>
        { type := some "pattern", pattern := some prw.1,
          matched_text := some m, version := some "original" }

/-- `PatternAnalyzerService.check_ocr_text_for_sponsors`
(pattern_analyzer_service.py lines 29-154). -/
def check_ocr_text_for_sponsors (ocrText : String)
    (imageUrl : String := "") : List Indicator :=
  if ocrText == "" then []
  else
    let norm := removeWhitespace ocrText
    -- short OCR text from a sticker domain (lines 41-52): early return
    if imageUrl != "" && norm.data.length ≤ 4 && 0 < norm.data.length &&
        STICKER_DOMAINS.any (fun d => pyIn d imageUrl) then
      [{ type := some "sticker_text", pattern := some "sticker_text",
         matched_text := some ocrText, probability := some 0.8,
         version := some "original" }]
    else
      -- `for text_version in [ocr_text, normalized_text]`
      (ocrKeywordPass ocrText norm ++ ocrPatternPass ocrText norm) ++
      (ocrKeywordPass norm norm ++ ocrPatternPass norm norm) ++
      (SPECIAL_CASE_PATTERNS.filterMap fun ntt =>
        if ocrSpecialCaseHit ocrText norm ntt.1 then
          some { type := some "special_case", pattern := some ntt.1,
                 matched_text := some ocrText }
        else none)

/-! ## Probability aggregator (`FilterService.calculate_sponsor_probability`,
filter_service.py lines 314-569) -/

/-- `f"\x7bpattern.get('type', 'unknown')\x7d:\x7bpattern.get('pattern', '')\x7d"`
(line 326). -/
def indicatorKey (p : Indicator) : String :=
  p.type.getD "unknown" ++ ":" ++ p.pattern.getD ""

/-- Overwrite the value stored at `key`, keeping its position (Python dicts
keep the first-insertion position on overwrite). -/
def updateAssoc : List (String × Indicator) → String → Indicator →
    List (String × Indicator)
  | [], _, _ => []
  | (k, v) :: t, key, p =>
    if k == key then (k, p) :: t else (k, v) :: updateAssoc t key p

/-- One iteration of the deduplication loop (lines 325-345).  When the key
already exists the source checks fire, but every arm — OCR/image, sticker
and the unconditional fall-through — performs the same overwrite, so the
later copy always wins. -/
def dedupInsert (m : List (String × Indicator)) (p : Indicator) :
    List (String × Indicator) :=
  let key := indicatorKey p
  match m.lookup key with
  | some _existing =>
    let currentSource := pyLower (p.source.getD "unknown")
    if pyIn "ocr" currentSource || pyIn "image" currentSource then
      updateAssoc m key p
    else if pyIn "sticker" currentSource then
      updateAssoc m key p
    else
      updateAssoc m key p
  | none => m ++ [(key, p)]

/-- The deduplication phase: `pattern.get(...)` on a plain string raises
`AttributeError`. -/
def dedupPatterns (found : List IndVal) : Except PyErr (List Indicator) := do
  let m ← found.foldlM (fun m v =>
    match v with
    | .str _ => Except.error PyErr.attributeError
    | .ind p => Except.ok (dedupInsert m p)) []
  pure (m.map Prod.snd)

/-- `academic_keywords` (lines 351-365). -/
def academicKeywords : List String :=
  ["학술", "연구", "논문", "학회", "교육", "수업", "강의", "정보", "참고",
   "참조", "도서관", "자료", "문헌"]

/-- The academic-context scan (lines 366-375). -/
def isAcademicContext (filtered : List Indicator) : Bool :=
  filtered.any fun p =>
    let mt := p.matched_text.getD ""
    let text := p.siText.getD ""
    academicKeywords.any fun kw =>
      pyIn kw mt || (text != "" && pyIn kw text)

/-- `has_sticker_source` (lines 383-385). -/
def hasStickerSource (filtered : List Indicator) : Bool :=
  filtered.any fun p => pyIn "sticker" (pyLower (p.source.getD ""))

/-- `has_ocr_source` (lines 388-394). -/
def hasOcrSource (filtered : List Indicator) : Bool :=
  filtered.any fun p =>
    pyIn "ocr" (pyLower (p.source.getD "")) ||
    pyIn "image" (pyLower (p.source.getD ""))

/-- Anchored tail of the `"A + B"` rule names read as regexes: one-or-more
spaces, one further literal space, then `b` (`" +"` quantifies the space). -/
def spacePlusThen (b : List Char) : List Char → Bool
  | ' ' :: t => listIsPrefix b t || spacePlusThen b t
  | _ => false

/-- Scan for `a`, at least two spaces, then `b` (the reading of the rule
name `"a + b"` as a regex). -/
def scanSpacePlus (a b : String) : List Char → Bool
  | [] => false
  | c :: t =>
    (listIsPrefix a.data (c :: t) &&
      match (c :: t).drop a.data.length with
      | ' ' :: t' => spacePlusThen b.data t'
      | _ => false) ||
    scanSpacePlus a b t

/-- `re.search(p, pattern_text, re.IGNORECASE)` for the four special-case
rule names used as regexes (line 433); `+` quantifies the space inside the
name, and IGNORECASE is modelled by lowering both sides. -/
def specialNameRegexHit (name text : String) : Bool :=
  let t := pyLower text
  if name == "업체 + 지원/제공" then scanSpacePlus "업체" "지원/제공" t.data
  else if name == "후기 + 지원/제공" then scanSpacePlus "후기" "지원/제공" t.data
  else if name == "광고 + 콘텐츠" then scanSpacePlus "광고" "콘텐츠" t.data
  else if name == "AD + 포스팅" then scanSpacePlus "ad" "포스팅" t.data
  else false

/-- `content_weight` (lines 424-437).  In the `special_case` arm the source
binds the rule's VALUE — a Python dict — to `content_weight`; the later
multiplication `content_weight * 0.1` / `* 0.2` then raises `TypeError`,
modelled by `throw` here. -/
def contentWeightOf (patternType patternText : String) : Except PyErr ℚ :=
  if patternType == "pattern" then
    Except.ok (match SPONSOR_PATTERNS.find?
            (fun prw => (rxSearch prw.2.1 patternText).isSome) with
          | some prw => prw.2.2
          | none => 0.0)
  else if patternType == "special_case" then
    if SPECIAL_CASE_PATTERNS.any (fun ntt =>
        pyIn ntt.1 patternText || specialNameRegexHit ntt.1 patternText) then
      Except.error PyErr.typeError
    else Except.ok 0.0
  else if patternType == "keyword" then
    Except.ok (sponsorKeywordsGet (pyLower patternText) 0.2)
  else Except.ok 0.0

/-- `source_weight` after the OCR/image, sticker and academic adjustments
(lines 405-421). -/
def sourceWeightOf (isAcademic : Bool) (source : String) : ℚ :=
  let ls := pyLower source
  let sw := (allWeightsGet source).getD 0.3
  let sw := if pyIn "ocr" ls || pyIn "image" ls then (0.85 : ℚ) else sw
  let sw := if pyIn "sticker" ls then (0.9 : ℚ) else sw
  if isAcademic && !(pyIn "sticker" ls || pyIn "ocr" ls || pyIn "image" ls)
  then sw * 0.6 else sw

/-- One iteration of the per-indicator probability loop (lines 396-459). -/
def patternProbOf (isAcademic : Bool) (p : Indicator) : Except PyErr ℚ :=
  let patternType := p.type.getD "unknown"
  let source := p.source.getD "unknown"
  let patternText := p.pattern.getD ""
  let typeWeight := (allWeightsGet patternType).getD 0.2
  let sourceWeight := sourceWeightOf isAcademic source
  match contentWeightOf patternType patternText with
  | .error e => .error e
  | .ok contentWeight =>
    let ls := pyLower source
    if pyIn "ocr" ls || pyIn "image" ls || pyIn "sticker" ls then
      .ok (typeWeight * 0.3 + sourceWeight * 0.6 + contentWeight * 0.1)
    else
      .ok (typeWeight * 0.5 + sourceWeight * 0.3 + contentWeight * 0.2)

/-- One step of the loop's accumulators `(indicator_prob, max_prob)`
(lines 454-458). -/
def probFoldStep (isAcademic : Bool) (acc : ℚ × ℚ) (p : Indicator) :
    Except PyErr (ℚ × ℚ) :=
  match patternProbOf isAcademic p with
  | .error e => .error e
  | .ok pp => .ok (acc.1 + pp, max acc.2 pp)

/-- The loop's accumulators over the whole filtered list. -/
def probFold (isAcademic : Bool) (filtered : List Indicator) :
    Except PyErr (ℚ × ℚ) :=
  filtered.foldlM (probFoldStep isAcademic) ((0 : ℚ), (0 : ℚ))

/-- `reviewnote_patterns` non-empty (lines 466-477). -/
def reviewnoteHit (filtered : List Indicator) : Bool :=
  filtered.any fun p =>
    pyIn "reviewnote" (pyLower (p.source.getD "")) ||
    (p.siImageUrl.getD "" != "" && pyIn "reviewnote" (p.siImageUrl.getD ""))

/-- A clear sponsor keyword among the OCR/image/sticker indicators (lines
482-497); the membership test compares the LOWERED pattern against a list
that still contains upper-case entries, exactly as the source does. -/
def ocrStickerClearKeyword (filtered : List Indicator) : Bool :=
  (filtered.filter fun p =>
    let ls := pyLower (p.source.getD "")
    pyIn "ocr" ls || pyIn "image" ls || pyIn "sticker" ls).any fun p =>
      ["광고", "협찬", "AD", "제공", "Sponsored", "PPL"].contains
        (pyLower (p.pattern.getD ""))

/-- `min_probability` (lines 461-500 without the reviewnote early return):
the value the source's assignments leave in place when control reaches a
use. -/
def minProbabilityOf (filtered : List Indicator) : ℚ :=
  if hasOcrSource filtered || hasStickerSource filtered then
    if ocrStickerClearKeyword filtered then 0.85 else 0.7
  else 0.0

/-- The single-keyword case (lines 502-523), for the lone surviving
indicator `p0`. -/
def singleKeywordScore (minProbability maxProb : ℚ) (p0 : Indicator) : ℚ :=
  let patternText := pyLower (p0.pattern.getD "")
  let source := pyLower (p0.source.getD "")
  if pyIn "ocr" source || pyIn "image" source || pyIn "sticker" source then
    if ["광고", "협찬", "AD", "Sponsored", "PPL"].contains patternText then
      max minProbability (min maxProb 0.9)
    else if ["제공", "지원"].contains patternText then
      max minProbability (min maxProb 0.8)
    else max minProbability (min maxProb 0.7)
  else if ["광고", "후기"].contains patternText then
    min maxProb 0.4
  else min maxProb 0.5

/-- The multi-indicator tail: probability ceiling (lines 525-538), combined
probability (lines 540-549), common-keyword-only limits (lines 551-566) and
the final clamp (line 569). -/
def multiScore (filtered : List Indicator)
    (minProbability indicatorProb maxProb : ℚ) : ℚ :=
  let hasOr := hasOcrSource filtered || hasStickerSource filtered
  let maxProbability : ℚ :=
    if hasOr then
      if filtered.all (fun p =>
          ["제공", "지원", "후기", "작성"].contains
            (pyLower (p.pattern.getD ""))) then 0.8
      else 0.95
    else 0.9
  let normalizedIndicatorProb :=
    indicatorProb / (1 + (filtered.length : ℚ) * 0.2)
  let combinedProb :=
    if hasOr then
      normalizedIndicatorProb * 0.2 + maxProb * 0.8
    else
      normalizedIndicatorProb * 0.3 + maxProb * 0.7
  if !hasOr &&
      filtered.all (fun p =>
        ["광고", "후기", "제공", "지원", "작성"].contains
          (pyLower (p.pattern.getD ""))) then
    if filtered.length == 1 then min combinedProb 0.4
    else if filtered.length == 2 then min combinedProb 0.6
    else min combinedProb 0.8
  else max minProbability (min combinedProb maxProbability)

/-- The pure tail of `calculate_sponsor_probability` (lines 461-569), run
once the loop has delivered `(indicator_prob, max_prob)`: from that point on
the source only selects among values — the `return` statements become the
branches of this ladder.  The `reviewnote` early return is guarded by
`has_ocr or has_sticker` exactly as in the source (it sits inside that `if`
block). -/
def scoreFromFiltered (filtered : List Indicator)
    (indicatorProb maxProb : ℚ) : ℚ :=
  if (hasOcrSource filtered || hasStickerSource filtered) &&
      reviewnoteHit filtered then 1.0
  else if filtered.length == 1 &&
      (filtered.headD {}).type == some "keyword" then
    singleKeywordScore (minProbabilityOf filtered) maxProb
      (filtered.headD {})
  else
    multiScore filtered (minProbabilityOf filtered) indicatorProb maxProb

/-- `FilterService.calculate_sponsor_probability` (lines 314-569): the empty
guard, the deduplication (which raises on non-dict entries), the
per-indicator loop (which raises on matched special-case content weights),
then the pure selection ladder. -/
def calculate_sponsor_probability (found : List IndVal) :
    Except PyErr ℚ :=
  if found.isEmpty then .ok 0.0
  else
    match dedupPatterns found with
    | .error e => .error e
    | .ok filtered =>
      match probFold (isAcademicContext filtered) filtered with
      | .error e => .error e
      | .ok fm => .ok (scoreFromFiltered filtered fm.1 fm.2)

/-! ## Markup documents

Shallow model of the parsed markup (the external `BeautifulSoup` parser is
treated as given): a document is the forest of its elements; an element
carries the attributes the pipeline reads.  `linkdataSrc` models the decoded
`"src"` key of a `data-linkdata` attribute (`none` ↔ the attribute is absent
or fails to decode — in either case the source code skips the element, so
the two are observationally identical).  `strings` are the element's direct
text pieces; descendant text pieces follow in `elemStrings`. -/

inductive HTMLElem where
  | node (tag : String) (classes : List String) (src : Option String)
         (style : Option String) (linkdataSrc : Option String)
         (strings : List String) (children : List HTMLElem)

def HTMLElem.tag : HTMLElem → String
  | .node t _ _ _ _ _ _ => t

def HTMLElem.classes : HTMLElem → List String
  | .node _ c _ _ _ _ _ => c

def HTMLElem.src : HTMLElem → Option String
  | .node _ _ s _ _ _ _ => s

def HTMLElem.style : HTMLElem → Option String
  | .node _ _ _ st _ _ _ => st

def HTMLElem.linkdataSrc : HTMLElem → Option String
  | .node _ _ _ _ l _ _ => l

mutual

/-- Every node of a forest in document (preorder) order: the traversal
order of BeautifulSoup `find_all`. -/
def allNodes : List HTMLElem → List HTMLElem
  | [] => []
  | e :: rest => e :: nodeDescendants e ++ allNodes rest

/-- The proper descendants of a node, in document order. -/
def nodeDescendants : HTMLElem → List HTMLElem
  | .node _ _ _ _ _ _ ch => allNodes ch

end

mutual

/-- All text pieces of a node (own strings, then each child's pieces). -/
def elemStrings : HTMLElem → List String
  | .node _ _ _ _ _ strs ch => strs ++ elemStringsList ch

def elemStringsList : List HTMLElem → List String
  | [] => []
  | e :: rest => elemStrings e ++ elemStringsList rest

end

/-- `elem.get_text(strip=True)`: concatenate the stripped text pieces,
skipping those that strip to nothing. -/
def getTextStrip (e : HTMLElem) : String :=
  String.join (((elemStrings e).map pyStrip).filter (fun s => s != ""))

/-- `soup.find_all(class_=re.compile(pat))` membership test: some class of
the element matches the pattern (all patterns used are literal strings, so
`re.search` is a substring test); elements without classes never match. -/
def elemClassMatches (pat : String) (e : HTMLElem) : Bool :=
  e.classes.any fun c => pyIn pat c

def findAllByClass (doc : List HTMLElem) (pat : String) : List HTMLElem :=
  (allNodes doc).filter (elemClassMatches pat)

/-- `' '.join(elem.get('class', []))`. -/
def joinClasses (e : HTMLElem) : String :=
  String.intercalate " " e.classes

/-- First `some` produced along a list — the early `return` of a Python
`for` loop. -/
def firstSome : List α → (α → Option β) → Option β
  | [], _ => none
  | a :: t, f =>
    match f a with
    | some b => some b
    | none => firstSome t f

/-- The lazy capture group of `url\([\x27"]?(.*?)[\x27"]?\)` once `url(` has
been consumed: the shortest prefix whose remainder is `)` or a quote
followed by `)`; the dot of the lazy group does not cross a newline. -/
def lazyCapture : List Char → Option (List Char)
  | [] => none
  | c :: t =>
    if c == ')' then some []
    else if (c == '\'' || c == '"') && t.head? == some ')' then some []
    else if c == '\n' then none
    else (lazyCapture t).map (fun cap => c :: cap)

/-- `re.search(r'url\([\x27"]?(.*?)[\x27"]?\)', style)` returning group 1:
scan for `url(`, optionally consume one leading quote (backtracking to the
unconsumed reading if needed), then take the lazy capture. -/
def extractStyleUrl : List Char → Option String
  | [] => none
  | c :: t =>
    if listIsPrefix "url(".data (c :: t) then
      let after := (c :: t).drop 4
      let attempt :=
        match after with
        | q :: rest =>
          if q == '\'' || q == '"' then
            match lazyCapture rest with
            | some cap => some cap
            | none => lazyCapture after
          else lazyCapture after
        | [] => none
      match attempt with
      | some cap => some ⟨cap⟩
      | none => extractStyleUrl t
    else extractStyleUrl t

/-! ## Detection orchestrator (`DetectionService`, detection_service.py) -/

namespace DetectionService

/-- `DetectionService.STICKER_DOMAINS` (detection_service.py lines 18-23):
the service's private copy (it differs from `constants.STICKER_DOMAINS`). -/
def STICKER_DOMAINS : List String :=
  ["storep-phinf.pstatic.net", "post-phinf.pstatic.net", "ssl.pstatic.net",
   "cometoplay.kr"]

/-- `DetectionService.STICKER_CLASSES` (lines 26-28). -/
def STICKER_CLASSES : List String :=
  ["se-sticker", "sticker", "_img", "sponsor-tag", "ad-tag"]

/-- `DetectionService.SPONSOR_CLASS_PATTERNS` (lines 31-33). -/
def SPONSOR_CLASS_PATTERNS : List String :=
  ["sponsor", "ad-tag", "promotion", "체험단", "협찬", "revu"]

/-- `DetectionService.NON_SPONSOR_CLASS_PATTERNS` (lines 36-38). -/
def NON_SPONSOR_CLASS_PATTERNS : List String :=
  ["buddy", "loading", "head", "map", "lazy"]

/-- `DetectionService.SPONSOR_KEYWORDS` (lines 55-57): the service's private
plain keyword list. -/
def SPONSOR_KEYWORDS : List String :=
  ["협찬", "제공", "지원", "체험단", "원고료", "무상", "무료", "스폰서",
   "제품제공"]

/-- The class-based arm of `extract_first_sticker` applied to one candidate
element (detection_service.py lines 163-180): first the contained `<img>`,
then the background-image style, each gated on the sticker domains. -/
def stickerFromElem (e : HTMLElem) : Option (String × String) :=
  let imgHit :=
    match (nodeDescendants e).find? (fun d => d.tag == "img") with
    | some img =>
      if img.src.getD "" != "" &&
          STICKER_DOMAINS.any (fun d => pyIn d (img.src.getD "")) then
        some (img.src.getD "", "class_based")
      else none
    | none => none
  match imgHit with
  | some r => some r
  | none =>
    match e.style with
    | some st =>
      if pyIn "background-image" st then
        match extractStyleUrl st.data with
        | some url =>
          if STICKER_DOMAINS.any (fun d => pyIn d url) then
            some (url, "style_based")
          else none
        | none => none
      else none
    | none => none

/-- `DetectionService.extract_first_sticker` (detection_service.py lines
157-215): four prioritized scans, each returning the first hit. -/
def extract_first_sticker (doc : List HTMLElem) : Option (String × String) :=
  -- 1. sticker classes
  match firstSome STICKER_CLASSES (fun pat =>
      firstSome (findAllByClass doc pat) stickerFromElem) with
  | some r => some r
  | none =>
  -- 2. data-linkdata attributes
  match firstSome (allNodes doc) (fun e =>
      match e.linkdataSrc with
      | some url =>
        if STICKER_DOMAINS.any (fun d => pyIn d url) then
          some (url, "linkdata_based")
        else none
      | none => none) with
  | some r => some r
  | none =>
  -- 3. `<img>` tags on a sticker domain
  match firstSome (allNodes doc) (fun e =>
      if e.tag == "img" && e.src.getD "" != "" &&
          STICKER_DOMAINS.any (fun d => pyIn d (e.src.getD "")) then
        some (e.src.getD "", "img_based")
      else none) with
  | some r => some r
  | none =>
  -- 4. background-image styles
  firstSome (allNodes doc) (fun e =>
    match e.style with
    | some st =>
      if pyIn "background-image" st then
        match extractStyleUrl st.data with
        | some url =>
          if STICKER_DOMAINS.any (fun d => pyIn d url) then
            some (url, "background_based")
          else none
        | none => none
      else none
    | none => none)

/-- The keyword/pattern/special-case scan over the sticker's OCR text
(detection_service.py lines 262-298), producing
`(type, pattern, matched_text)` triples in insertion order. -/
def foundPatterns (ocrText : String) : List (String × String × String) :=
  (SPONSOR_KEYWORDS.filterMap fun kw =>
    if pyIn kw ocrText then some ("keyword", kw, kw) else none) ++
  (SPONSOR_TEXT_PATTERNS.filterMap fun pr =>
    (rxSearch pr.2 ocrText).map fun m => ("pattern", pr.1, m)) ++
  (if pyIn "업체" ocrText && (pyIn "지원" ocrText || pyIn "제공" ocrText) then
    [("special_case", "업체 + 지원/제공", ocrText)] else []) ++
  (if pyIn "후기" ocrText && (pyIn "지원" ocrText || pyIn "제공" ocrText) then
    [("special_case", "후기 + 지원/제공", ocrText)] else [])

/-- The indicator string appended per found pattern (line 307). -/
def stickerIndicatorText (tpm : String × String × String) (url : String) :
    String :=
  "스티커 OCR에서 협찬 " ++ tpm.1 ++ " 발견: '" ++ tpm.2.2 ++
  "' (패턴: " ++ tpm.2.1 ++ ", 이미지: " ++ url ++ ")"

/-- Stage 1 of `detect_sponsored_content` (lines 239-319): resolve the first
sticker, OCR it through the oracle (`none` models a failed download), and
scan the recognized text.  Returns the stage's indicator strings. -/
def stickerStageIndicators (doc : List HTMLElem)
    (ocrFetch : String → Option String) : List IndVal :=
  match extract_first_sticker doc with
  | none => []
  | some ut =>
    match ocrFetch ut.1 with
    | none => []
    | some ocrText =>
      if ocrText != "" then
        (foundPatterns ocrText).map fun tpm =>
          IndVal.str (stickerIndicatorText tpm ut.1)
      else []

/-- The elements surviving the structural class scan (lines 322-329),
including the duplicates produced when an element matches several sponsor
class patterns. -/
def structureElems (doc : List HTMLElem) : List HTMLElem :=
  SPONSOR_CLASS_PATTERNS.flatMap fun pat =>
    (findAllByClass doc pat).filter fun e =>
      !(NON_SPONSOR_CLASS_PATTERNS.any fun np => pyIn np (joinClasses e))

/-- Stage 2 of `detect_sponsored_content` (lines 321-346): the header line
followed by one numbered line per surviving element. -/
def structureStageIndicators (doc : List HTMLElem) : List IndVal :=
  let elems := structureElems doc
  if elems.isEmpty then []
  else
    let details := elems.map fun e =>
      let t := pyTake (getTextStrip e) 100
      (joinClasses e, if t == "" then "(텍스트 없음)" else t)
    IndVal.str ("협찬 관련 HTML 요소 발견: " ++ toString details.length ++ "개") ::
    details.enum.map fun idet =>
      IndVal.str ("  " ++ toString (idet.1 + 1) ++ ". 클래스: " ++ idet.2.1 ++
        ", 텍스트: " ++ idet.2.2)

end DetectionService

/-- `v` is a plain string indicator. -/
def IndVal.isStr : IndVal → Bool
  | .str _ => true
  | .ind _ => false

/-- `v` is a dictionary — the shape the pydantic annotation
`List[Dict[str, Any]]` accepts for an `indicators` element. -/
def IndVal.isDict : IndVal → Bool
  | .str _ => false
  | .ind _ => true

/-- `SponsorDetectionResult` (models/schemas.py lines 43-48), restricted to
the fields the pipeline reads downstream. -/
structure SponsorDetectionResult where
  is_sponsored : Bool
  indicators : List IndVal
deriving Repr, DecidableEq

/-- The `ValidationError` pydantic raises when a `SponsorDetectionResult` is
constructed with non-dict entries in `indicators`. -/
def pydanticValidationMsg : String :=
  "pydantic ValidationError: SponsorDetectionResult.indicators items must be dictionaries"

/-- Construction of a `SponsorDetectionResult`: pydantic (`BaseModel`,
schemas.py line 43) validates the arguments at construction time, and the
annotation `indicators: List[Dict[str, Any]]` rejects any entry that is not
a dictionary — in particular the plain strings `DetectionService` stores —
by raising `ValidationError`. -/
def SponsorDetectionResult.model_validate (is_sponsored : Bool)
    (indicators : List IndVal) : Except String SponsorDetectionResult :=
  if indicators.all IndVal.isDict then
    .ok { is_sponsored := is_sponsored, indicators := indicators }
  else
    .error pydanticValidationMsg

/-- The markup-fetch transport (spec §6): a page together with its parse, a
non-200 response, or a connection-level failure. -/
structure RawHtml where
  text : String
  dom : List HTMLElem

inductive FetchOutcome where
  | success (page : RawHtml)
  | httpFailure
  | netFailure

namespace DetectionService

/-- `DetectionService.get_full_blog_content` (detection_service.py lines
59-100): rewrite to the mobile host, fetch, drop access-block pages; every
failure (non-200, connection error) collapses to `None`. -/
def get_full_blog_content (web : String → FetchOutcome) (blogUrl : String) :
    Option RawHtml :=
  let url :=
    if pyIn "blog.naver.com" blogUrl && !pyIn "m.blog.naver.com" blogUrl then
      pyReplace blogUrl "blog.naver.com" "m.blog.naver.com"
    else blogUrl
  match web url with
  | .success page =>
    if pyIn "비정상적인 접근" page.text || pyIn "로봇" page.text ||
        pyIn "자동화된 접근" page.text then none
    else some page
  | .httpFailure => none
  | .netFailure => none

/-- The body of `detect_sponsored_content` once markup is in hand: sticker
OCR stage, then the structural scan, their indicators concatenated;
`is_sponsored` is `len(indicators) > 0` (lines 239-360). -/
def detectOnDoc (doc : List HTMLElem) (ocrFetch : String → Option String) :
    SponsorDetectionResult :=
  let indicators :=
    stickerStageIndicators doc ocrFetch ++ structureStageIndicators doc
  { is_sponsored := !indicators.isEmpty, indicators := indicators }

/-- `DetectionService.detect_sponsored_content` (detection_service.py lines
217-360).  The incompleteness gate (line 223) refetches through
`get_full_blog_content` whenever the supplied markup is missing, shorter
than 1000 characters or lacks the substring `"se-sticker"`; a failed refetch
takes the early return at lines 230-234.  Every return point constructs a
`SponsorDetectionResult`, which pydantic validates: since the stages append
plain strings to `indicators`, construction raises `ValidationError`
whenever the list is non-empty — including the error-note early return,
whose list holds the single note string.  The arm that would hand `None` to
the parser raises (modelled by `.error`). -/
def detect_sponsored_content (htmlContent : Option RawHtml)
    (blogUrl : Option String) (web : String → FetchOutcome)
    (ocrFetch : String → Option String) :
    Except String SponsorDetectionResult :=
  let gate :=
    match htmlContent with
    | none => true
    | some page =>
      page.text == "" || page.text.data.length < 1000 ||
      !pyIn "se-sticker" page.text
  if gate then
    match blogUrl with
    | some url =>
      match get_full_blog_content web url with
      | none =>
        SponsorDetectionResult.model_validate false
          [.str "블로그 콘텐츠를 가져오지 못했습니다."]
      | some page =>
        SponsorDetectionResult.model_validate
          (detectOnDoc page.dom ocrFetch).is_sponsored
          (detectOnDoc page.dom ocrFetch).indicators
    | none =>
      match htmlContent with
      | none => .error "TypeError: object of type NoneType has no len()"
      | some page =>
        SponsorDetectionResult.model_validate
          (detectOnDoc page.dom ocrFetch).is_sponsored
          (detectOnDoc page.dom ocrFetch).indicators
  else
    match htmlContent with
    | some page =>
      SponsorDetectionResult.model_validate
        (detectOnDoc page.dom ocrFetch).is_sponsored
        (detectOnDoc page.dom ocrFetch).indicators
    | none =>
      -- unreachable: a missing content makes the gate true
      .error "unreachable"

end DetectionService

/-! ## Per-item pipeline (`FilterService.process_blog_post`) -/

/-- `NaverService.get_blog_content` (naver_service.py lines 50-66): the body
text on a 200 response, the empty string on any other status, and an
uncaught `aiohttp` exception on a connection-level failure. -/
def get_blog_content (web : String → FetchOutcome) (url : String) :
    Except String RawHtml :=
  match web url with
  | .success page => .ok page
  | .httpFailure => .ok ⟨"", []⟩
  | .netFailure => .error "aiohttp client error"

/-- One search item (the fields of a Naver blog-search result used by
`process_blog_post`). -/
structure Item where
  title : String
  link : String
  description : String
  bloggername : String
  bloggerlink : String
  postdate : String
deriving Repr, DecidableEq

/-- `BlogPost` (models/schemas.py lines 11-20). -/
structure BlogPost where
  title : String
  link : String
  description : String
  bloggername : String
  bloggerlink : String
  postdate : String
  is_sponsored : Bool
  sponsor_indicators : List IndVal
  sponsor_probability : ℚ
deriving Repr, DecidableEq

/-- The default post returned by the per-item exception handler
(filter_service.py lines 97-108). -/
def defaultBlogPost (item : Item) : BlogPost :=
  { title := item.title, link := item.link, description := item.description,
    bloggername := item.bloggername, bloggerlink := item.bloggerlink,
    postdate := item.postdate, is_sponsored := false,
    sponsor_indicators := [], sponsor_probability := 0 }

def PyErr.message : PyErr → String
  | .attributeError => "AttributeError: str object has no attribute get"
  | .typeError => "TypeError: cannot multiply dict and float"

/-- `FilterService.process_blog_post` (filter_service.py lines 28-108): the
snippet check, the conditional markup fetch + detection, the indicator
merge, the probability computation, and the `except` clause that converts
any fault into the default not-sponsored post.  (The semaphore only bounds
concurrency and has no effect on the per-item result.) -/
def process_blog_post (web : String → FetchOutcome)
    (ocrFetch : String → Option String) (item : Item) : BlogPost :=
  let descriptionIndicators := check_description_for_sponsors item.description
  let skipContentCheck :=
    !descriptionIndicators.isEmpty && 2 ≤ descriptionIndicators.length
  let body : Except String BlogPost :=
    if !skipContentCheck then
      match get_blog_content web item.link with
      | .error e => .error e
      | .ok htmlContent =>
        match DetectionService.detect_sponsored_content (some htmlContent)
            (some item.link) web ocrFetch with
        | .error e => .error e
        | .ok detectionResult =>
          let allIndicators := detectionResult.indicators ++
            descriptionIndicators.map IndVal.ind
          let isSponsored := detectionResult.is_sponsored ||
            !descriptionIndicators.isEmpty
          match calculate_sponsor_probability allIndicators with
          | .error e => .error (PyErr.message e)
          | .ok postProbability =>
            .ok { title := item.title, link := item.link,
                  description := item.description,
                  bloggername := item.bloggername,
                  bloggerlink := item.bloggerlink, postdate := item.postdate,
                  is_sponsored := isSponsored,
                  sponsor_indicators := allIndicators,
                  sponsor_probability := postProbability }
    else
      match calculate_sponsor_probability
          (descriptionIndicators.map IndVal.ind) with
      | .error e => .error (PyErr.message e)
      | .ok postProbability =>
        .ok { title := item.title, link := item.link,
              description := item.description,
              bloggername := item.bloggername,
              bloggerlink := item.bloggerlink, postdate := item.postdate,
              is_sponsored := true,
              sponsor_indicators := descriptionIndicators.map IndVal.ind,
              sponsor_probability := postProbability }
  match body with
  | .ok post => post
  | .error _ => defaultBlogPost item

/-! ## OCR cache/adapter (`OCRService`, ocr_service.py) -/

namespace OCRService

/-- The value of an ASCII digit run. -/
def digitsToNat (ds : List Char) : Nat :=
  ds.foldl (fun n c => n * 10 + (c.toNat - '0'.toNat)) 0

/-- `re.search(r"\?type=w(\d+)", u)` (ocr_service.py line 165): the leftmost
occurrence of `?type=w` followed by at least one digit, returning
`(group(0), int(group(1)))`. -/
def findTypeW : List Char → Option (String × Nat)
  | [] => none
  | c :: t =>
    if listIsPrefix "?type=w".data (c :: t) then
      let ds := ((c :: t).drop 7).takeWhile Char.isDigit
      if ds.isEmpty then findTypeW t
      else some (⟨"?type=w".data ++ ds⟩, digitsToNat ds)
    else findTypeW t

/-- `OCRService.normalize_image_url` (ocr_service.py lines 142-169; the
identical rewrite also lives in ocr_utils.py lines 103-130): upgrade the
blurred-thumbnail parameter, rewrite the thumbnail host to the original
host, drop small-size parameters and upgrade small explicit widths. -/
def normalize_image_url (imgUrl : String) : String :=
  if imgUrl == "" then imgUrl
  else
    let u :=
      if pyIn "?type=w80_blur" imgUrl then
        pyReplace imgUrl "?type=w80_blur" "?type=w773"
      else imgUrl
    if pyIn "mblogthumb-phinf.pstatic.net" u then
      let u := pyReplace u "mblogthumb-phinf.pstatic.net"
        "postfiles.pstatic.net"
      if pyIn "?type=" u && pyCountChar u '?' == 1 then
        let u := pyReplace (pyReplace u "?type=w80_blur" "") "?type=w80" ""
        if pyIn "?type=w" u then
          match findTypeW u.data with
          | some gd => if gd.2 < 500 then pyReplace u gd.1 "?type=w773" else u
          | none => u
        else u
      else u
    else u

/-- The cache state of `OCRService`.  `cache` models both tiers together —
the in-process map `OCRService.ocr_cache` and the file tier keyed by the md5
of the URL — because `cache_ocr_result` always writes both under the same
(raw, un-normalized) URL key and `get_cached_ocr_result` consults them in
order.  `downloads` is observational instrumentation: the list of URLs for
which `download_image` was invoked. -/
structure OCRState where
  cache : List (String × String)
  downloads : List String
deriving Repr, DecidableEq

/-- Insert-or-overwrite for the cache map. -/
def upsert : List (String × String) → String → String →
    List (String × String)
  | [], k, v => [(k, v)]
  | (k', v') :: t, k, v =>
    if k' == k then (k', v) :: t else (k', v') :: upsert t k v

/-- `OCRService.get_cached_ocr_result` (ocr_service.py lines 49-67). -/
def get_cached_ocr_result (st : OCRState) (imageUrl : String) :
    Option String :=
  st.cache.lookup imageUrl

/-- `OCRService.cache_ocr_result` (ocr_service.py lines 41-47). -/
def cache_ocr_result (st : OCRState) (imageUrl ocrText : String) : OCRState :=
  { st with cache := upsert st.cache imageUrl ocrText }

/-- `OCRService.process_image_ocr` (ocr_service.py lines 171-190).  The
oracle `downloadAndOcr` stands for `download_image` followed by
`extract_text_from_image`: `none` models a failed download (including empty
bytes), `some t` a download whose recognition produced `t` (possibly
empty).  Note the lookup and the store both use the RAW `image_url`. -/
def process_image_ocr (downloadAndOcr : String → Option String)
    (imageUrl : String) (st : OCRState) : String × OCRState :=
  match get_cached_ocr_result st imageUrl with
  | some cachedText => (cachedText, st)
  | none =>
    let st := { st with downloads := st.downloads ++ [imageUrl] }
    match downloadAndOcr imageUrl with
    | none => ("", st)
    | some ocrText =>
      if ocrText != "" then (ocrText, cache_ocr_result st imageUrl ocrText)
      else (ocrText, st)

end OCRService

/-! ## Concrete fixtures used by the claim theorems -/

/-- A keyword indicator as the OCR path would tag it. -/
def iOcr : Indicator :=
  { type := some "keyword", pattern := some "협찬",
    matched_text := some "협찬", source := some "sticker_ocr" }

/-- The same (type, pattern) key from the snippet path. -/
def iDesc : Indicator :=
  { type := some "keyword", pattern := some "협찬",
    matched_text := some "협찬", source := some "description" }

/-- A single low-weight generic keyword from the snippet
(`SPONSOR_KEYWORDS["후기"] = 0.01`). -/
def iDescWeak : Indicator :=
  { type := some "keyword", pattern := some "후기",
    matched_text := some "후기", source := some "description" }

/-- A document holding a badge sticker (with an OCR-able image on a sticker
domain) AND a structural sponsor marker. -/
def sampleSticker : HTMLElem :=
  .node "div" ["se-sticker"] none none none []
    [.node "img" [] (some "https://storep-phinf.pstatic.net/sticker/1.png")
      none none [] []]

def sampleSponsorDiv : HTMLElem :=
  .node "div" ["sponsor-tag"] none none none ["Ad content"] []

def sampleDoc : List HTMLElem := [sampleSticker, sampleSponsorDiv]

/-- A document with only the structural marker. -/
def structOnlyDoc : List HTMLElem := [sampleSponsorDiv]

/-- An OCR oracle that reads `협찬` off every image. -/
def oracleOcr : String → Option String := fun _ => some "협찬"

/-- Transport oracle serving `sampleDoc`. -/
def webC1 : String → FetchOutcome := fun _ => .success ⟨"x", sampleDoc⟩

/-- Transport oracle serving `structOnlyDoc`. -/
def webStruct : String → FetchOutcome := fun _ => .success ⟨"x", structOnlyDoc⟩

/-- A transport oracle for an unreachable host. -/
def webDown : String → FetchOutcome := fun _ => .netFailure

/-- Transport oracle serving an empty document: neither stage yields. -/
def webBenign : String → FetchOutcome := fun _ => .success ⟨"x", []⟩

def itemPlain : Item :=
  ⟨"t", "https://blog.example.com/1", "", "b", "bl", "20240101"⟩

def itemWeather : Item :=
  ⟨"t", "https://blog.example.com/2", "오늘의 날씨는 맑습니다", "b", "bl",
   "20240101"⟩

/-- Download-and-recognize oracle used for the cache runs. -/
def dlOracle : String → Option String := fun _ => some "협찬"

/-- A blurred-thumbnail URL and its normalized form: two distinct raw URLs
sharing one normalized form. -/
def uBlur : String := "http://mblogthumb-phinf.pstatic.net/a.jpg?type=w80_blur"

def uFull : String := "http://postfiles.pstatic.net/a.jpg?type=w773"

/-- An adversarial URL: deleting its `?type=w80` parameter splices together
a fresh occurrence of the thumbnail host, so a second normalization pass
still rewrites. -/
def uSplice : String :=
  "mblogthumb-phinf.pstatic.netAmblogthumb-ph?type=w80inf.pstatic.net"

/-! ## Shared lemmas -/

theorem lookup_upsert (m : List (String × String)) (k v : String) :
    (OCRService.upsert m k v).lookup k = some v := by
  induction m with
  | nil => simp [OCRService.upsert, List.lookup]
  | cons p t ih =>
    by_cases h : p.1 = k
    · simp [OCRService.upsert, h, List.lookup]
    · have hb : (p.1 == k) = false := by simp [h]
      have hb' : (k == p.1) = false := by
        simp only [beq_eq_false_iff_ne, ne_eq]
        exact fun hh => h hh.symm
      simp [OCRService.upsert, hb, hb', List.lookup, ih]

theorem lookup_getD_nonneg (l : List (String × ℚ)) (s : String) (d : ℚ)
    (hl : ∀ p ∈ l, 0 ≤ p.2) (hd : 0 ≤ d) : 0 ≤ (l.lookup s).getD d := by
  induction l with
  | nil => simpa [List.lookup]
  | cons p t ih =>
    obtain ⟨k, w⟩ := p
    simp only [List.lookup]
    cases hsp : s == k
    · simp only [hsp]
      exact ih fun q hq => hl q (by simp [hq])
    · simpa [hsp] using hl (k, w) (by simp)

theorem allWeights_getD_nonneg (s : String) (d : ℚ) (hd : 0 ≤ d) :
    0 ≤ (allWeightsGet s).getD d := by
  apply lookup_getD_nonneg _ _ _ _ hd
  intro p hp
  fin_cases hp <;> norm_num

theorem sponsorKeywordsGet_nonneg (s : String) (d : ℚ) (hd : 0 ≤ d) :
    0 ≤ sponsorKeywordsGet s d := by
  apply lookup_getD_nonneg _ _ _ _ hd
  intro p hp
  fin_cases hp <;> norm_num

theorem sourceWeightOf_nonneg (isAc : Bool) (s : String) :
    0 ≤ sourceWeightOf isAc s := by
  unfold sourceWeightOf
  dsimp only
  split_ifs
  all_goals first
    | (norm_num; done)
    | (refine allWeights_getD_nonneg s _ ?_; norm_num)
    | (refine mul_nonneg (allWeights_getD_nonneg s _ ?_) (by norm_num);
       norm_num)

theorem contentWeightOf_nonneg (t p : String) (w : ℚ)
    (h : contentWeightOf t p = .ok w) : 0 ≤ w := by
  unfold contentWeightOf at h
  split at h
  · cases hf : SPONSOR_PATTERNS.find?
        (fun prw => (rxSearch prw.2.1 p).isSome) with
    | none =>
      rw [hf] at h
      injection h with h'
      rw [← h']
      norm_num
    | some prw =>
      rw [hf] at h
      injection h with h'
      rw [← h']
      have hmem := List.mem_of_find?_eq_some hf
      have hall : ∀ x ∈ SPONSOR_PATTERNS, (0 : ℚ) ≤ x.2.2 := by
        intro x hx
        simp only [SPONSOR_PATTERNS, List.mem_map] at hx
        obtain ⟨pr, _, rfl⟩ := hx
        norm_num
      exact hall prw hmem
  · split at h
    · split at h
      · cases h
      · injection h with h'
        rw [← h']
        norm_num
    · split at h
      · injection h with h'
        rw [← h']
        exact sponsorKeywordsGet_nonneg _ _ (by norm_num)
      · injection h with h'
        rw [← h']
        norm_num

theorem patternProbOf_nonneg (isAc : Bool) (p : Indicator) (pp : ℚ)
    (h : patternProbOf isAc p = .ok pp) : 0 ≤ pp := by
  have htw : (0 : ℚ) ≤ (allWeightsGet (p.type.getD "unknown")).getD 0.2 :=
    allWeights_getD_nonneg _ _ (by norm_num)
  have hsw : (0 : ℚ) ≤ sourceWeightOf isAc (p.source.getD "unknown") :=
    sourceWeightOf_nonneg _ _
  cases hc : contentWeightOf (p.type.getD "unknown") (p.pattern.getD "") with
  | error e =>
    simp only [patternProbOf, hc] at h
    exact Except.noConfusion h
  | ok w =>
    have hw := contentWeightOf_nonneg _ _ _ hc
    simp only [patternProbOf, hc] at h
    split at h <;> (injection h with h'; rw [← h']; linarith)

theorem probFold_go_nonneg (isAc : Bool) (l : List Indicator) :
    ∀ (acc fm : ℚ × ℚ), 0 ≤ acc.1 → 0 ≤ acc.2 →
    List.foldlM (probFoldStep isAc) acc l = .ok fm →
    0 ≤ fm.1 ∧ 0 ≤ fm.2 := by
  induction l with
  | nil =>
    intro acc fm h1 h2 h
    simp only [List.foldlM, pure, Except.pure] at h
    injection h with h'
    rw [← h']
    exact ⟨h1, h2⟩
  | cons p t ih =>
    intro acc fm h1 h2 h
    simp only [List.foldlM] at h
    cases hp : patternProbOf isAc p with
    | error e =>
      simp only [probFoldStep, hp, bind, Except.bind] at h
      exact Except.noConfusion h
    | ok pp =>
      have hpp := patternProbOf_nonneg _ _ _ hp
      simp only [probFoldStep, hp, bind, Except.bind] at h
      exact ih _ fm (add_nonneg h1 hpp)
        (le_trans h2 (le_max_left _ _)) h

theorem probFold_nonneg (isAc : Bool) (l : List Indicator) (fm : ℚ × ℚ)
    (h : probFold isAc l = .ok fm) : 0 ≤ fm.1 ∧ 0 ≤ fm.2 :=
  probFold_go_nonneg isAc l (0, 0) fm (by norm_num) (by norm_num) h

theorem minProbabilityOf_bounds (f : List Indicator) :
    0 ≤ minProbabilityOf f ∧ minProbabilityOf f ≤ 0.85 := by
  constructor <;> (simp only [minProbabilityOf]; repeat' split) <;> norm_num

theorem singleKeywordScore_nonneg (minP mp : ℚ) (p0 : Indicator)
    (hminP : 0 ≤ minP) (hmp : 0 ≤ mp) :
    0 ≤ singleKeywordScore minP mp p0 := by
  unfold singleKeywordScore
  dsimp only
  split_ifs
  all_goals simp only [le_max_iff, le_min_iff]
  all_goals first
    | exact Or.inl hminP
    | exact ⟨hmp, by norm_num⟩

theorem singleKeywordScore_le_one (minP mp : ℚ) (p0 : Indicator)
    (hminP : minP ≤ 0.85) : singleKeywordScore minP mp p0 ≤ 1 := by
  unfold singleKeywordScore
  dsimp only
  split_ifs
  all_goals simp only [max_le_iff, min_le_iff]
  all_goals first
    | exact ⟨by linarith, Or.inr (by norm_num)⟩
    | exact Or.inr (by norm_num)

theorem multiScore_nonneg (f : List Indicator) (minP ip mp : ℚ)
    (hminP : 0 ≤ minP) (hip : 0 ≤ ip) (hmp : 0 ≤ mp) :
    0 ≤ multiScore f minP ip mp := by
  have hn : (0 : ℚ) ≤ ip / (1 + (f.length : ℚ) * 0.2) := by positivity
  unfold multiScore
  dsimp only
  split_ifs
  all_goals simp only [le_max_iff, le_min_iff]
  all_goals first
    | exact Or.inl hminP
    | exact ⟨by linarith, by norm_num⟩

theorem multiScore_le_one (f : List Indicator) (minP ip mp : ℚ)
    (hminP : minP ≤ 0.85) : multiScore f minP ip mp ≤ 1 := by
  unfold multiScore
  dsimp only
  split_ifs
  all_goals simp only [max_le_iff, min_le_iff]
  all_goals first
    | exact ⟨by linarith, Or.inr (by norm_num)⟩
    | exact Or.inr (by norm_num)

theorem scoreFromFiltered_nonneg (f : List Indicator) (ip mp : ℚ)
    (hip : 0 ≤ ip) (hmp : 0 ≤ mp) : 0 ≤ scoreFromFiltered f ip mp := by
  obtain ⟨hm0, _⟩ := minProbabilityOf_bounds f
  unfold scoreFromFiltered
  split_ifs
  · norm_num
  · exact singleKeywordScore_nonneg _ _ _ hm0 hmp
  · exact multiScore_nonneg _ _ _ _ hm0 hip hmp

theorem scoreFromFiltered_le_one (f : List Indicator) (ip mp : ℚ) :
    scoreFromFiltered f ip mp ≤ 1 := by
  obtain ⟨_, hm85⟩ := minProbabilityOf_bounds f
  unfold scoreFromFiltered
  split_ifs
  · norm_num
  · exact singleKeywordScore_le_one _ _ _ hm85
  · exact multiScore_le_one _ _ _ _ hm85

theorem exists_singleton_of_length_one {α : Type} (l : List α)
    (h : l.length = 1) : ∃ a, l = [a] := by
  cases l with
  | nil => simp at h
  | cons x t =>
    cases t with
    | nil => exact ⟨x, rfl⟩
    | cons y t2 => simp at h

theorem minProbabilityOf_floor (f : List Indicator)
    (hsrc : (hasOcrSource f || hasStickerSource f) = true) :
    (0.7 : ℚ) ≤ minProbabilityOf f := by
  simp only [minProbabilityOf, hsrc, if_true]
  split <;> norm_num

theorem singleKeywordScore_floor (minP mp : ℚ) (p0 : Indicator)
    (hminP : 0.7 ≤ minP)
    (hsrc : (pyIn "ocr" (pyLower (p0.source.getD "")) ||
             pyIn "image" (pyLower (p0.source.getD "")) ||
             pyIn "sticker" (pyLower (p0.source.getD ""))) = true) :
    (0.7 : ℚ) ≤ singleKeywordScore minP mp p0 := by
  unfold singleKeywordScore
  dsimp only
  simp only [hsrc, if_true]
  split_ifs
  all_goals simp only [le_max_iff]
  all_goals exact Or.inl hminP

theorem multiScore_floor (f : List Indicator) (minP ip mp : ℚ)
    (hminP : 0.7 ≤ minP)
    (hsrc : (hasOcrSource f || hasStickerSource f) = true) :
    (0.7 : ℚ) ≤ multiScore f minP ip mp := by
  unfold multiScore
  dsimp only
  simp only [hsrc, Bool.not_true, Bool.false_and, Bool.false_eq_true,
    if_false, le_max_iff]
  exact Or.inl hminP

theorem scoreFromFiltered_floor (f : List Indicator) (ip mp : ℚ)
    (hsrc : (hasOcrSource f || hasStickerSource f) = true) :
    (0.7 : ℚ) ≤ scoreFromFiltered f ip mp := by
  have hminP := minProbabilityOf_floor f hsrc
  unfold scoreFromFiltered
  simp only [hsrc, Bool.true_and]
  split_ifs with h1 h2
  · norm_num
  · have hlen : f.length = 1 := by
      have h3 := ((Bool.and_eq_true _ _).mp h2).1
      simpa using h3
    obtain ⟨a, ha⟩ := exists_singleton_of_length_one f hlen
    subst ha
    apply singleKeywordScore_floor _ _ _ hminP
    simp only [hasOcrSource, hasStickerSource, List.any_cons, List.any_nil,
      Bool.or_false, List.headD_cons] at hsrc ⊢
    exact hsrc
  · exact multiScore_floor _ _ _ _ hminP hsrc

/-- `dedup` of a single dictionary indicator is that indicator. -/
theorem dedupPatterns_singleton (i : Indicator) :
    dedupPatterns [.ind i] = .ok [i] := rfl

/-- A lone `keyword` indicator tagged `description` can never exceed 0.5
in the score ladder: it takes the non-trusted single-keyword branch. -/
theorem score_single_desc_keyword_cap (ind : Indicator) (ip mp : ℚ)
    (htype : ind.type = some "keyword")
    (hsource : ind.source = some "description") :
    scoreFromFiltered [ind] ip mp ≤ 0.5 := by
  have hocr : hasOcrSource [ind] = false := by
    simp only [hasOcrSource, List.any_cons, List.any_nil, Bool.or_false,
      hsource, Option.getD_some]
    decide
  have hsticker : hasStickerSource [ind] = false := by
    simp only [hasStickerSource, List.any_cons, List.any_nil, Bool.or_false,
      hsource, Option.getD_some]
    decide
  have hguard : (pyIn "ocr" (pyLower (ind.source.getD "")) ||
      pyIn "image" (pyLower (ind.source.getD "")) ||
      pyIn "sticker" (pyLower (ind.source.getD ""))) = false := by
    simp only [hsource, Option.getD_some]
    decide
  unfold scoreFromFiltered
  simp only [hocr, hsticker, Bool.or_self, Bool.false_and, Bool.false_eq_true,
    if_false, List.length_cons, List.length_nil, List.headD_cons, htype]
  simp only [Nat.zero_add, beq_self_eq_true, Bool.and_self, if_true]
  unfold singleKeywordScore
  dsimp only
  simp only [hguard, Bool.false_eq_true, if_false]
  split_ifs
  · exact le_trans (min_le_right _ _) (by norm_num)
  · exact min_le_right _ _

/-- Concrete run: the aggregator on the weak snippet keyword, first with the
score left symbolic, then evaluated. -/
theorem calc_single_weak_symbolic :
    calculate_sponsor_probability [.ind iDescWeak] =
      .ok (min (max 0 ((0.4 : ℚ) * 0.5 + 0.8 * 0.3 + 0.01 * 0.2)) 0.4) := rfl

theorem calc_single_weak :
    calculate_sponsor_probability [.ind iDescWeak] = .ok (2/5 : ℚ) := by
  rw [calc_single_weak_symbolic]
  norm_num [min_def, max_def]

/-- Concrete run: the aggregator on the lone OCR keyword indicator. -/
theorem calc_single_ocr_symbolic :
    calculate_sponsor_probability [.ind iOcr] =
      .ok (max 0.85
        (min (max 0 ((0.4 : ℚ) * 0.3 + 0.9 * 0.6 + 0.8 * 0.1)) 0.9)) := rfl

theorem calc_single_ocr :
    calculate_sponsor_probability [.ind iOcr] = .ok (17/20 : ℚ) := by
  rw [calc_single_ocr_symbolic]
  norm_num [min_def, max_def]

/-- Concrete run: OCR copy first, plain copy second — deduplication keeps
the plain copy, and the score falls to the non-trusted single-keyword
branch. -/
theorem calc_ocr_then_desc_symbolic :
    calculate_sponsor_probability [.ind iOcr, .ind iDesc] =
      .ok (min (max 0 ((0.4 : ℚ) * 0.5 + 0.8 * 0.3 + 0.8 * 0.2)) 0.5) := rfl

theorem calc_ocr_then_desc :
    calculate_sponsor_probability [.ind iOcr, .ind iDesc] =
      .ok (1/2 : ℚ) := by
  rw [calc_ocr_then_desc_symbolic]
  norm_num [min_def, max_def]

theorem ocrKeywordPass_no_exact (tv n : String) :
    (ocrKeywordPass tv n).all (fun i => i.type != some "exact_keyword") := by
  rw [List.all_eq_true]
  intro i hi
  simp only [ocrKeywordPass, List.mem_filterMap] at hi
  obtain ⟨kv, _, hkv⟩ := hi
  split at hkv
  · cases hkv
    simp
  · cases hkv

theorem ocrPatternPass_no_exact (tv n : String) :
    (ocrPatternPass tv n).all (fun i => i.type != some "exact_keyword") := by
  rw [List.all_eq_true]
  intro i hi
  simp only [ocrPatternPass] at hi
  split at hi
  · cases hi
  · simp only [List.mem_filterMap] at hi
    obtain ⟨prw, _, hm⟩ := hi
    cases hr : rxSearch prw.2.1 tv with
    | none => rw [hr] at hm; cases hm
    | some m =>
      rw [hr] at hm
      simp only [Option.map_some'] at hm
      cases hm
      simp

/-! ## Claim theorems -/

/-- C10 counterexample: image-URL normalization is NOT idempotent.  On
`uSplice`, deleting the `?type=w80` parameter splices together a fresh
occurrence of `mblogthumb-phinf.pstatic.net`, which a second pass rewrites
again. -/
theorem C10_normalize_not_idempotent :
    OCRService.normalize_image_url (OCRService.normalize_image_url uSplice) ≠
      OCRService.normalize_image_url uSplice := by decide

/-- C10 (amended): `normalize_image_url` is a pure string rewrite, and it is
idempotent at every URL whose normalized form contains neither the
`?type=w80_blur` parameter nor the thumbnail host
`mblogthumb-phinf.pstatic.net`; full idempotence fails
(`C10_normalize_not_idempotent`). -/
theorem C10_normalize_idempotent_on_normal_forms (u : String)
    (h1 : pyIn "?type=w80_blur" (OCRService.normalize_image_url u) = false)
    (h2 : pyIn "mblogthumb-phinf.pstatic.net"
      (OCRService.normalize_image_url u) = false) :
    OCRService.normalize_image_url (OCRService.normalize_image_url u) =
      OCRService.normalize_image_url u := by
  set v := OCRService.normalize_image_url u with hv
  unfold OCRService.normalize_image_url
  simp [h1, h2, ← hv]

/-- Witness for `C10_normalize_idempotent_on_normal_forms` at an ordinary
image URL. -/
theorem C10_witness :
    pyIn "?type=w80_blur"
        (OCRService.normalize_image_url "https://example.com/a.jpg") = false ∧
    OCRService.normalize_image_url
        (OCRService.normalize_image_url "https://example.com/a.jpg") =
      OCRService.normalize_image_url "https://example.com/a.jpg" :=
  ⟨by decide,
   C10_normalize_idempotent_on_normal_forms "https://example.com/a.jpg"
     (by decide) (by decide)⟩

/-- C9 counterexample: `process_image_ocr` does NOT normalize before the
cache lookup/store.  `uBlur` and `uFull` share one normalized form, yet
after recognizing `uBlur` a call on `uFull` misses the cache and performs a
second download. -/
theorem C9_no_normalization_before_cache :
    OCRService.normalize_image_url uBlur =
      OCRService.normalize_image_url uFull ∧
    uBlur ≠ uFull ∧
    (OCRService.process_image_ocr dlOracle uFull
        (OCRService.process_image_ocr dlOracle uBlur ⟨[], []⟩).2).2.downloads
      = [uBlur, uFull] := by decide

/-- C9 (amended): the cache is keyed by the RAW image URL: a repeated call
with the literally identical URL whose first call produced non-empty text is
a pure cache hit — same text, unchanged state, no further download. -/
theorem C9_raw_url_cache_hit (downloadAndOcr : String → Option String)
    (u : String) (st : OCRService.OCRState)
    (h : (OCRService.process_image_ocr downloadAndOcr u st).1 ≠ "") :
    OCRService.process_image_ocr downloadAndOcr u
        (OCRService.process_image_ocr downloadAndOcr u st).2 =
      ((OCRService.process_image_ocr downloadAndOcr u st).1,
       (OCRService.process_image_ocr downloadAndOcr u st).2) := by
  cases hc : st.cache.lookup u with
  | some t =>
    have h1 : OCRService.process_image_ocr downloadAndOcr u st = (t, st) := by
      simp [OCRService.process_image_ocr, OCRService.get_cached_ocr_result, hc]
    rw [h1]
    exact h1
  | none =>
    cases hdo : downloadAndOcr u with
    | none =>
      have h1 : (OCRService.process_image_ocr downloadAndOcr u st).1 = "" := by
        simp [OCRService.process_image_ocr, OCRService.get_cached_ocr_result,
          hc, hdo]
      exact absurd h1 h
    | some t =>
      by_cases ht : t = ""
      · have h1 : (OCRService.process_image_ocr downloadAndOcr u st).1 = "" := by
          simp [OCRService.process_image_ocr, OCRService.get_cached_ocr_result,
            hc, hdo, ht]
        exact absurd h1 h
      · have htb : (t != "") = true := by simp [ht]
        have h1 : OCRService.process_image_ocr downloadAndOcr u st =
            (t, OCRService.cache_ocr_result
              ⟨st.cache, st.downloads ++ [u]⟩ u t) := by
          simp [OCRService.process_image_ocr, OCRService.get_cached_ocr_result,
            hc, hdo, htb]
        rw [h1]
        simp [OCRService.process_image_ocr, OCRService.get_cached_ocr_result,
          OCRService.cache_ocr_result, lookup_upsert]

/-- Witness for `C9_raw_url_cache_hit`: recognizing `uBlur` from the empty
state yields non-empty text, and the repeat call is the identity. -/
theorem C9_witness :
    (OCRService.process_image_ocr dlOracle uBlur ⟨[], []⟩).1 ≠ "" ∧
    OCRService.process_image_ocr dlOracle uBlur
        (OCRService.process_image_ocr dlOracle uBlur ⟨[], []⟩).2 =
      ((OCRService.process_image_ocr dlOracle uBlur ⟨[], []⟩).1,
       (OCRService.process_image_ocr dlOracle uBlur ⟨[], []⟩).2) :=
  ⟨by decide, C9_raw_url_cache_hit dlOracle uBlur ⟨[], []⟩ (by decide)⟩

/-- C6 counterexample: the deduplication does NOT keep the OCR/sticker copy
regardless of order.  With the OCR copy first and the plain `description`
copy second under the same (type, pattern) key, the plain copy survives. -/
theorem C6_dedup_drops_earlier_ocr_copy :
    indicatorKey iOcr = indicatorKey iDesc ∧
    pyIn "ocr" (pyLower (iOcr.source.getD "")) = true ∧
    pyIn "ocr" (pyLower (iDesc.source.getD "")) = false ∧
    pyIn "sticker" (pyLower (iDesc.source.getD "")) = false ∧
    dedupPatterns [.ind iOcr, .ind iDesc] = .ok [iDesc] := by decide

/-- C6 (amended): for two indicators sharing a (type, pattern) key the
deduplication always keeps the LATER copy — the source-preference branches
all perform the same overwrite — so the OCR/image/sticker copy survives
exactly when it comes second. -/
theorem C6_dedup_keeps_later_copy (a b : Indicator)
    (h : indicatorKey a = indicatorKey b) :
    dedupPatterns [.ind a, .ind b] = .ok [b] := by
  have hb : (indicatorKey a == indicatorKey b) = true := by simp [h]
  simp [dedupPatterns, List.foldlM, dedupInsert, updateAssoc, List.lookup,
    hb, h, pure, Except.pure, bind, Except.bind]

/-- Witness for `C6_dedup_keeps_later_copy`: with the plain copy first and
the OCR copy second, the OCR copy survives. -/
theorem C6_witness :
    indicatorKey iDesc = indicatorKey iOcr ∧
    dedupPatterns [.ind iDesc, .ind iOcr] = .ok [iOcr] :=
  ⟨by decide, C6_dedup_keeps_later_copy iDesc iOcr (by decide)⟩

/-- C2: the curated unambiguous-phrase set is dead code.  `소정의` belongs
to `EXACT_SPONSOR_KEYWORDS_PATTERNS` (and is its own whitespace-stripped
normal form), yet `check_ocr_text_for_sponsors` returns NO indicator for it
— not the claimed single `exact_keyword` — and in fact no output of the
matcher ever carries kind `exact_keyword`. -/
theorem C2_exact_phrase_set_unused :
    "소정의" ∈ EXACT_SPONSOR_KEYWORDS_PATTERNS ∧
    removeWhitespace "소정의" = "소정의" ∧
    check_ocr_text_for_sponsors "소정의" "" = [] ∧
    ∀ t u : String, (check_ocr_text_for_sponsors t u).all
      (fun i => i.type != some "exact_keyword") := by
  refine ⟨by decide, by decide, by decide, ?_⟩
  intro t u
  simp only [check_ocr_text_for_sponsors]
  split
  · rfl
  · split
    · simp
    · simp only [List.all_append, ocrKeywordPass_no_exact,
        ocrPatternPass_no_exact, Bool.true_and, Bool.and_true]
      rw [List.all_eq_true]
      intro i hi
      simp only [List.mem_filterMap] at hi
      obtain ⟨ntt, _, hntt⟩ := hi
      split at hntt
      · cases hntt
        simp
      · cases hntt

/-- C7: whenever `calculate_sponsor_probability` returns, the returned
score lies in the closed unit interval — on every branch: early returns,
single-keyword branches, floors, caps and the combined-probability path. -/
theorem C7_score_in_unit_interval (found : List IndVal) (q : ℚ)
    (h : calculate_sponsor_probability found = .ok q) : 0 ≤ q ∧ q ≤ 1 := by
  unfold calculate_sponsor_probability at h
  split at h
  · injection h with h'
    rw [← h']
    norm_num
  · split at h
    · exact Except.noConfusion h
    · split at h
      · exact Except.noConfusion h
      · rename_i filtered heq1 fm hfold
        injection h with h'
        rw [← h']
        obtain ⟨h1, h2⟩ := probFold_nonneg _ _ _ hfold
        exact ⟨scoreFromFiltered_nonneg _ _ _ h1 h2,
               scoreFromFiltered_le_one _ _ _⟩

/-- Witness for `C7_score_in_unit_interval` at the weak-keyword run. -/
theorem C7_witness : 0 ≤ (2/5 : ℚ) ∧ (2/5 : ℚ) ≤ 1 :=
  C7_score_in_unit_interval [.ind iDescWeak] (2/5) calc_single_weak

/-- C5: an indicator list consisting of exactly one `keyword` indicator
with source `description` (and base keyword weight at most 0.2) scores at
most 0.5: the non-trusted single-keyword branch caps it at 0.4 or 0.5. -/
theorem C5_single_description_keyword_cap (ind : Indicator) (q : ℚ)
    (htype : ind.type = some "keyword")
    (hsource : ind.source = some "description")
    (_hweight : sponsorKeywordsGet (pyLower (ind.pattern.getD "")) 0.2 ≤ 0.2)
    (hcalc : calculate_sponsor_probability [.ind ind] = .ok q) :
    q ≤ 0.5 := by
  unfold calculate_sponsor_probability at hcalc
  simp only [List.isEmpty_cons, Bool.false_eq_true, if_false,
    dedupPatterns_singleton] at hcalc
  cases hp : probFold (isAcademicContext [ind]) [ind] with
  | error e =>
    rw [hp] at hcalc
    exact Except.noConfusion hcalc
  | ok fm =>
    rw [hp] at hcalc
    injection hcalc with h'
    rw [← h']
    exact score_single_desc_keyword_cap ind fm.1 fm.2 htype hsource

/-- Witness for `C5_single_description_keyword_cap` on the snippet keyword
`후기` (base weight 0.01). -/
theorem C5_witness :
    sponsorKeywordsGet (pyLower (iDescWeak.pattern.getD "")) 0.2 ≤ 0.2 ∧
    (2/5 : ℚ) ≤ 0.5 :=
  ⟨by have h : sponsorKeywordsGet (pyLower (iDescWeak.pattern.getD ""))
        0.2 = 0.01 := rfl
      rw [h]; norm_num,
   C5_single_description_keyword_cap iDescWeak (2/5) rfl rfl
     (by have h : sponsorKeywordsGet (pyLower (iDescWeak.pattern.getD ""))
           0.2 = 0.01 := rfl
         rw [h]; norm_num)
     calc_single_weak⟩

/-- C4 counterexample: an input list CONTAINING a sticker-OCR indicator is
not enough for the 0.70 floor.  With the OCR copy first and a plain copy of
the same (type, pattern) key second, deduplication keeps the plain copy and
the final score is 0.5 < 0.70. -/
theorem C4_floor_fails_for_input_level_sources :
    pyIn "ocr" (pyLower (iOcr.source.getD "")) = true ∧
    calculate_sponsor_probability [.ind iOcr, .ind iDesc] =
      .ok (1/2 : ℚ) ∧
    (1/2 : ℚ) < 0.7 :=
  ⟨by decide, calc_ocr_then_desc, by norm_num⟩

/-- C4 (amended): the floor law holds for the indicators SURVIVING
deduplication: whenever some deduplicated indicator has an
OCR/image/sticker-derived source and the aggregator returns, the score is
at least 0.70. -/
theorem C4_trusted_source_floor (found : List IndVal)
    (filtered : List Indicator) (q : ℚ)
    (hded : dedupPatterns found = .ok filtered)
    (hsrc : (hasOcrSource filtered || hasStickerSource filtered) = true)
    (hcalc : calculate_sponsor_probability found = .ok q) :
    (0.7 : ℚ) ≤ q := by
  unfold calculate_sponsor_probability at hcalc
  split at hcalc
  · rename_i hempty
    rw [List.isEmpty_iff] at hempty
    subst hempty
    injection hded with h'
    rw [← h'] at hsrc
    simp [hasOcrSource, hasStickerSource] at hsrc
  · split at hcalc
    · rename_i e heq
      rw [hded] at heq
      exact Except.noConfusion heq
    · rename_i filtered' heq
      rw [hded] at heq
      injection heq with h2
      subst h2
      split at hcalc
      · exact Except.noConfusion hcalc
      · rename_i fm hfold
        injection hcalc with h'
        rw [← h']
        exact scoreFromFiltered_floor _ _ _ hsrc

/-- Witness for `C4_trusted_source_floor`: the lone sticker-OCR keyword
survives deduplication and scores 0.85 ≥ 0.70. -/
theorem C4_witness :
    dedupPatterns [.ind iOcr] = .ok [iOcr] ∧
    (hasOcrSource [iOcr] || hasStickerSource [iOcr]) = true ∧
    (0.7 : ℚ) ≤ 17/20 :=
  ⟨by decide, by decide,
   C4_trusted_source_floor [.ind iOcr] [iOcr] (17/20) (by decide) (by decide)
     calc_single_ocr⟩

theorem detectOnDoc_parts (doc : List HTMLElem)
    (f : String → Option String) :
    (DetectionService.detectOnDoc doc f).indicators =
      DetectionService.stickerStageIndicators doc f ++
      DetectionService.structureStageIndicators doc ∧
    ((DetectionService.detectOnDoc doc f).is_sponsored = true ↔
      (DetectionService.detectOnDoc doc f).indicators ≠ []) := by
  refine ⟨rfl, ?_⟩
  show (!(DetectionService.stickerStageIndicators doc f ++
      DetectionService.structureStageIndicators doc).isEmpty) = true ↔ _
  cases hl : DetectionService.stickerStageIndicators doc f ++
      DetectionService.structureStageIndicators doc with
  | nil => simp [DetectionService.detectOnDoc, hl]
  | cons a t => simp [DetectionService.detectOnDoc, hl]

theorem stickerStage_all_str (doc : List HTMLElem)
    (f : String → Option String) :
    (DetectionService.stickerStageIndicators doc f).all IndVal.isStr
      = true := by
  unfold DetectionService.stickerStageIndicators
  split
  · rfl
  · split
    · rfl
    · split
      · rw [List.all_eq_true]
        intro v hv
        simp only [List.mem_map] at hv
        obtain ⟨tpm, _, rfl⟩ := hv
        rfl
      · rfl

theorem structureStage_all_str (doc : List HTMLElem) :
    (DetectionService.structureStageIndicators doc).all IndVal.isStr
      = true := by
  unfold DetectionService.structureStageIndicators
  dsimp only
  split
  · rfl
  · rw [List.all_eq_true]
    intro v hv
    simp only [List.mem_cons, List.mem_map] at hv
    rcases hv with rfl | ⟨idet, _, rfl⟩
    · rfl
    · rfl

theorem isDict_eq_false_of_isStr (i : IndVal) (h : i.isStr = true) :
    i.isDict = false := by
  cases i with
  | str s => rfl
  | ind d => exact Bool.noConfusion h

theorem all_str_and_dict_nil (l : List IndVal)
    (h1 : l.all IndVal.isStr = true) (h2 : l.all IndVal.isDict = true) :
    l = [] := by
  cases l with
  | nil => rfl
  | cons a t =>
    simp only [List.all_cons, Bool.and_eq_true] at h1 h2
    rw [isDict_eq_false_of_isStr a h1.1] at h2
    exact Bool.noConfusion h2.1

theorem model_validate_ok (b : Bool) (inds : List IndVal)
    (r : SponsorDetectionResult)
    (h : SponsorDetectionResult.model_validate b inds = .ok r) :
    r = ⟨b, inds⟩ ∧ inds.all IndVal.isDict = true := by
  unfold SponsorDetectionResult.model_validate at h
  split at h
  next hall =>
    injection h with h'
    exact ⟨h'.symm, hall⟩
  next => exact Except.noConfusion h

theorem model_validate_error_of_str (b : Bool) (inds : List IndVal)
    (hall : inds.all IndVal.isStr = true) (hne : inds ≠ []) :
    SponsorDetectionResult.model_validate b inds =
      .error pydanticValidationMsg := by
  cases inds with
  | nil => exact absurd rfl hne
  | cons a t =>
    simp only [List.all_cons, Bool.and_eq_true] at hall
    unfold SponsorDetectionResult.model_validate
    simp [List.all_cons, isDict_eq_false_of_isStr a hall.1]

theorem detectOnDoc_all_str (doc : List HTMLElem)
    (ocrFetch : String → Option String) :
    (DetectionService.detectOnDoc doc ocrFetch).indicators.all
      IndVal.isStr = true := by
  rw [(detectOnDoc_parts doc ocrFetch).1, List.all_append,
    stickerStage_all_str, structureStage_all_str]
  rfl

/-- Every successful run of `detect_sponsored_content` is the not-sponsored
result with an EMPTY indicator list, reached exactly when both stages yield
nothing on the resolved document: the stages store plain strings, and
pydantic validation of `SponsorDetectionResult` rejects any non-empty
string list at construction. -/
theorem detect_ok_characterization (htmlContent : Option RawHtml)
    (blogUrl : Option String) (web : String → FetchOutcome)
    (ocrFetch : String → Option String) (r : SponsorDetectionResult)
    (h : DetectionService.detect_sponsored_content htmlContent blogUrl web
      ocrFetch = .ok r) :
    r.is_sponsored = false ∧ r.indicators = [] ∧
    ∃ doc, DetectionService.stickerStageIndicators doc ocrFetch = [] ∧
      DetectionService.structureStageIndicators doc = [] := by
  have key : ∀ doc : List HTMLElem, SponsorDetectionResult.model_validate
      (DetectionService.detectOnDoc doc ocrFetch).is_sponsored
      (DetectionService.detectOnDoc doc ocrFetch).indicators = .ok r →
      r.is_sponsored = false ∧ r.indicators = [] ∧
      ∃ d, DetectionService.stickerStageIndicators d ocrFetch = [] ∧
        DetectionService.structureStageIndicators d = [] := by
    intro doc hm
    obtain ⟨hr, hall⟩ := model_validate_ok _ _ _ hm
    have hinds : (DetectionService.detectOnDoc doc ocrFetch).indicators = [] :=
      all_str_and_dict_nil _ (detectOnDoc_all_str doc ocrFetch) hall
    have hparts := (detectOnDoc_parts doc ocrFetch).1
    rw [hinds] at hparts
    have hsticker : DetectionService.stickerStageIndicators doc ocrFetch = []
      := (List.append_eq_nil.mp hparts.symm).1
    have hstruct : DetectionService.structureStageIndicators doc = [] :=
      (List.append_eq_nil.mp hparts.symm).2
    have hsp : (DetectionService.detectOnDoc doc ocrFetch).is_sponsored =
        false := by
      simp [DetectionService.detectOnDoc, hsticker, hstruct]
    subst hr
    exact ⟨hsp, hinds, doc, hsticker, hstruct⟩
  simp only [DetectionService.detect_sponsored_content] at h
  split at h
  · split at h
    · split at h
      · rw [model_validate_error_of_str false _ (by decide) (by decide)] at h
        exact Except.noConfusion h
      · exact key _ h
    · split at h
      · exact Except.noConfusion h
      · exact key _ h
  · split at h
    · exact key _ h
    · exact Except.noConfusion h

/-- The aggregator raises `AttributeError` as soon as the first indicator is
a plain string (filter_service.py line 327: `pattern.get` on a `str`). -/
theorem calculate_error_on_str_head (s : String) (rest : List IndVal) :
    calculate_sponsor_probability (.str s :: rest) =
      .error PyErr.attributeError := rfl

/-- C1 counterexample: the orchestrator neither stops at the first source
that yields nor records that stage's result as the final answer.  On
`sampleDoc` the sticker stage yields an indicator, yet the structural stage
still runs and its indicators are appended; the call then raises pydantic
`ValidationError` at result construction (the stored indicators are plain
strings), so it returns neither the first stage's result nor the
concatenation. -/
theorem C1_cascade_does_not_short_circuit :
    DetectionService.stickerStageIndicators sampleDoc oracleOcr ≠ [] ∧
    DetectionService.structureStageIndicators sampleDoc ≠ [] ∧
    (DetectionService.detectOnDoc sampleDoc oracleOcr).indicators =
      DetectionService.stickerStageIndicators sampleDoc oracleOcr ++
      DetectionService.structureStageIndicators sampleDoc ∧
    DetectionService.detect_sponsored_content none
        (some "https://blog.example.com/1") webC1 oracleOcr =
      .error pydanticValidationMsg := by
  refine ⟨by decide, by decide, rfl, by decide⟩

/-- C1 (amended): `detect_sponsored_content` runs two signal sources over
one item's markup — sticker OCR, then structural class markers — WITHOUT
stopping at the first that yields, and it can never report a yielding
stage's result: because every return point validates the constructed
`SponsorDetectionResult` and the stages store plain strings, any non-empty
indicator list (including the markup-unavailable error note) raises
`ValidationError`.  Every successful run is the not-sponsored empty result,
obtained exactly when both stages yield nothing on the resolved
document. -/
theorem C1_success_requires_both_stages_empty (htmlContent : Option RawHtml)
    (blogUrl : Option String) (web : String → FetchOutcome)
    (ocrFetch : String → Option String) (r : SponsorDetectionResult)
    (h : DetectionService.detect_sponsored_content htmlContent blogUrl web
      ocrFetch = .ok r) :
    r.is_sponsored = false ∧ r.indicators = [] ∧
    ∃ doc, DetectionService.stickerStageIndicators doc ocrFetch = [] ∧
      DetectionService.structureStageIndicators doc = [] :=
  detect_ok_characterization htmlContent blogUrl web ocrFetch r h

/-- Witness for `C1_success_requires_both_stages_empty`: on an empty
document the call succeeds with the empty not-sponsored result. -/
theorem C1_witness :
    (⟨false, []⟩ : SponsorDetectionResult).is_sponsored = false ∧
    (⟨false, []⟩ : SponsorDetectionResult).indicators = [] ∧
    ∃ doc, DetectionService.stickerStageIndicators doc oracleOcr = [] ∧
      DetectionService.structureStageIndicators doc = [] :=
  C1_success_requires_both_stages_empty none
    (some "https://blog.example.com/1") webBenign oracleOcr ⟨false, []⟩ rfl

/-- C3 counterexample: the claimed `AttributeError` mechanism never
executes.  On a document whose structural scan yields an indicator,
`detect_sponsored_content` raises pydantic `ValidationError` at result
construction — before `calculate_sponsor_probability` could ever receive
the string indicators (which WOULD make it raise `AttributeError`, as
`calculate_error_on_str_head` shows) — and the pipeline still collapses to
the default post through this earlier fault. -/
theorem C3_attribute_error_mechanism_unreachable :
    (DetectionService.detectOnDoc structOnlyDoc oracleOcr).indicators ≠ [] ∧
    DetectionService.detect_sponsored_content (some ⟨"x", structOnlyDoc⟩)
        (some itemPlain.link) webStruct oracleOcr =
      .error pydanticValidationMsg ∧
    process_blog_post webStruct oracleOcr itemPlain =
      defaultBlogPost itemPlain := by
  refine ⟨by decide, by decide, rfl⟩

/-- C3 (corrected): HTML-derived evidence alone can never produce a
sponsored verdict at the public interface — but through pydantic
`ValidationError` at `SponsorDetectionResult` construction inside
`detect_sponsored_content`, not through `AttributeError` in
`calculate_sponsor_probability`, which is never reached with the string
indicators.  In full generality: for every item whose snippet yields no
indicators, whatever the markup holds and however detection fares, the
pipeline returns the default not-sponsored post. -/
theorem C3_html_evidence_never_sponsors (item : Item)
    (web : String → FetchOutcome) (ocrFetch : String → Option String)
    (hdesc : check_description_for_sponsors item.description = []) :
    process_blog_post web ocrFetch item = defaultBlogPost item := by
  cases hfetch : get_blog_content web item.link with
  | error e => simp only [process_blog_post, hdesc, List.isEmpty_nil,
      Bool.not_true, Bool.false_and, Bool.not_false, if_true, hfetch]
  | ok page =>
    cases hdet : DetectionService.detect_sponsored_content (some page)
        (some item.link) web ocrFetch with
    | error e => simp only [process_blog_post, hdesc, List.isEmpty_nil,
        Bool.not_true, Bool.false_and, Bool.not_false, if_true, hfetch, hdet]
    | ok r =>
      obtain ⟨hsp, hind, -⟩ := detect_ok_characterization _ _ _ _ _ hdet
      simp only [process_blog_post, hdesc, List.isEmpty_nil, Bool.not_true,
        Bool.false_and, Bool.not_false, if_true, hfetch, hdet, hsp, hind,
        List.map_nil, List.append_nil, Bool.or_self]
      simp [calculate_sponsor_probability, defaultBlogPost]
      norm_num

/-- Witness for `C3_html_evidence_never_sponsors`: an empty snippet with a
markup document whose structural scan yields an indicator still comes back
as the default post. -/
theorem C3_witness :
    check_description_for_sponsors itemPlain.description = [] ∧
    process_blog_post webStruct oracleOcr itemPlain =
      defaultBlogPost itemPlain :=
  ⟨by decide,
   C3_html_evidence_never_sponsors itemPlain webStruct oracleOcr (by decide)⟩

/-- C8: an item with a clean snippet and an unreachable markup URL comes
back not-sponsored with score 0.0 and an empty indicator list (the
connection error propagates to the per-item handler, which returns the
default post). -/
theorem C8_unreachable_markup_default (item : Item)
    (web : String → FetchOutcome) (ocrFetch : String → Option String)
    (hdesc : check_description_for_sponsors item.description = [])
    (hweb : web item.link = .netFailure) :
    (process_blog_post web ocrFetch item).is_sponsored = false ∧
    (process_blog_post web ocrFetch item).sponsor_probability = 0 ∧
    (process_blog_post web ocrFetch item).sponsor_indicators = [] := by
  have hfetch : get_blog_content web item.link =
      .error "aiohttp client error" := by
    unfold get_blog_content
    rw [hweb]
  have hpost : process_blog_post web ocrFetch item = defaultBlogPost item := by
    simp only [process_blog_post, hdesc, List.isEmpty_nil, Bool.not_true,
      Bool.false_and, Bool.not_false, if_true, hfetch]
  rw [hpost]
  exact ⟨rfl, rfl, rfl⟩

/-- Witness for `C8_unreachable_markup_default`: the weather snippet with a
dead network. -/
theorem C8_witness :
    check_description_for_sponsors itemWeather.description = [] ∧
    (process_blog_post webDown oracleOcr itemWeather).is_sponsored = false ∧
    (process_blog_post webDown oracleOcr itemWeather).sponsor_probability
      = 0 ∧
    (process_blog_post webDown oracleOcr itemWeather).sponsor_indicators
      = [] :=
  ⟨by decide,
   C8_unreachable_markup_default itemWeather webDown oracleOcr
     (by decide) rfl⟩

end SponsorFilter
